import Mathlib

/-!
# USBPcap: the URB analyzer of `USBPcapDriver/USBPcapURB.c`

A shallow embedding of `USBPcapRetrieveEndpointInfo`, `USBPcapPrintChars` and
`USBPcapAnalyzeURB`, and theorems about them.

Conventions of the embedding.

* Memory is a map from byte addresses to bytes.  The URB, the interface and pipe
  records and the transfer buffers all live in it, and the C casts of the source
  become little-endian reads at `pointer + offset`.  The analyzer never writes
  to this memory.  Pointers are natural numbers and `NULL` is `0`.
* The Windows structure layouts (`usb.h`) are not part of the repository; they
  are a parameter, `Layout`.  `x86` is the 32-bit layout.
* The embedding is of the checked build (`DBG` set, so `KdPrint` and
  `USBPcapPrintChars` are compiled in) for `_WIN32_WINNT >= 0x0600` (so the
  `URB_FUNCTION_CONTROL_TRANSFER_EX` case is present).
* Execution is sequential.  The `KeAcquireSpinLock`/`KeReleaseSpinLock` pairs
  that bracket each table access are not represented.
* The calls the analyzer makes to the debug macros (`DkDbgStr`, `DkDbgVal`,
  `KdPrint`) and to the endpoint table (`USBPcapGetEndpointInfo`,
  `USBPcapAddEndpointInfo`) are recorded, in order, in a trace of `Event`s.
  A `KdPrint` is recorded with its format string and its arguments.
* The `while` loop over the interface records may fail to terminate, so it takes
  a fuel argument: the number of iterations it is allowed.  `none` means that
  the loop is still running when the fuel is used up.
-/

namespace USBPcap

/-! ## Memory and layouts -/

/-- Byte-addressed memory.  A cell is read modulo 256. -/
abbrev Memory := Nat → Nat

/-- Little-endian read of `n` bytes at address `a`. -/
def readLE (m : Memory) (a : Nat) : Nat → Nat
  | 0 => 0
  | n + 1 => m a % 256 + 256 * readLE m (a + 1) n

/-- Read of a `UCHAR` field. -/
def readUCHAR (m : Memory) (a : Nat) : Nat := readLE m a 1

/-- Read of a `USHORT` field. -/
def readUSHORT (m : Memory) (a : Nat) : Nat := readLE m a 2

/-- Read of a `ULONG` field (also used for the `USBD_PIPE_TYPE` enumeration). -/
def readULONG (m : Memory) (a : Nat) : Nat := readLE m a 4

/-- Field offsets and sizes of the Windows structures the analyzer casts to. -/
structure Layout where
  /-- `sizeof(PVOID)`, also the size of a `USBD_PIPE_HANDLE` -/
  sizeofPointer : Nat
  /-- `offsetof(struct _URB_HEADER, Length)` -/
  hdrLength : Nat
  /-- `offsetof(struct _URB_HEADER, Function)` -/
  hdrFunction : Nat
  /-- `offsetof(struct _URB_SELECT_CONFIGURATION, Interface)` -/
  selInterface : Nat
  /-- `offsetof(USBD_INTERFACE_INFORMATION, Length)` -/
  ifLength : Nat
  /-- `offsetof(USBD_INTERFACE_INFORMATION, Class)` -/
  ifClass : Nat
  /-- `offsetof(USBD_INTERFACE_INFORMATION, SubClass)` -/
  ifSubClass : Nat
  /-- `offsetof(USBD_INTERFACE_INFORMATION, Protocol)` -/
  ifProtocol : Nat
  /-- `offsetof(USBD_INTERFACE_INFORMATION, NumberOfPipes)` -/
  ifNumberOfPipes : Nat
  /-- `offsetof(USBD_INTERFACE_INFORMATION, Pipes)` -/
  ifPipes : Nat
  /-- `sizeof(USBD_PIPE_INFORMATION)` -/
  sizeofPipe : Nat
  /-- `offsetof(USBD_PIPE_INFORMATION, MaximumPacketSize)` -/
  pipeMaximumPacketSize : Nat
  /-- `offsetof(USBD_PIPE_INFORMATION, EndpointAddress)` -/
  pipeEndpointAddress : Nat
  /-- `offsetof(USBD_PIPE_INFORMATION, PipeType)` -/
  pipePipeType : Nat
  /-- `offsetof(USBD_PIPE_INFORMATION, PipeHandle)` -/
  pipePipeHandle : Nat
  /-- `offsetof(struct _URB_CONTROL_TRANSFER, PipeHandle)` -/
  ctlPipeHandle : Nat
  /-- `offsetof(struct _URB_CONTROL_TRANSFER, TransferBufferLength)` -/
  ctlTransferBufferLength : Nat
  /-- `offsetof(struct _URB_CONTROL_TRANSFER, TransferBuffer)` -/
  ctlTransferBuffer : Nat
  /-- `offsetof(struct _URB_CONTROL_TRANSFER, SetupPacket)` -/
  ctlSetupPacket : Nat
  /-- `offsetof(struct _URB_CONTROL_TRANSFER_EX, PipeHandle)` -/
  ctlExPipeHandle : Nat
  /-- `offsetof(struct _URB_CONTROL_TRANSFER_EX, TransferBufferLength)` -/
  ctlExTransferBufferLength : Nat
  /-- `offsetof(struct _URB_CONTROL_TRANSFER_EX, TransferBuffer)` -/
  ctlExTransferBuffer : Nat
  /-- `offsetof(struct _URB_CONTROL_TRANSFER_EX, SetupPacket)` -/
  ctlExSetupPacket : Nat
  /-- `offsetof(struct _URB_BULK_OR_INTERRUPT_TRANSFER, PipeHandle)` -/
  bulkPipeHandle : Nat
  /-- `offsetof(struct _URB_BULK_OR_INTERRUPT_TRANSFER, TransferFlags)` -/
  bulkTransferFlags : Nat
  /-- `offsetof(struct _URB_BULK_OR_INTERRUPT_TRANSFER, TransferBufferLength)` -/
  bulkTransferBufferLength : Nat
  /-- `offsetof(struct _URB_BULK_OR_INTERRUPT_TRANSFER, TransferBuffer)` -/
  bulkTransferBuffer : Nat
  /-- `offsetof(struct _URB_BULK_OR_INTERRUPT_TRANSFER, TransferBufferMDL)` -/
  bulkTransferBufferMDL : Nat
  /-- `offsetof(struct _URB_ISOCH_TRANSFER, PipeHandle)` -/
  isoPipeHandle : Nat
  /-- `offsetof(struct _URB_ISOCH_TRANSFER, TransferFlags)` -/
  isoTransferFlags : Nat
  /-- `offsetof(struct _URB_ISOCH_TRANSFER, NumberOfPackets)` -/
  isoNumberOfPackets : Nat
  /-- `offsetof(struct _URB_CONTROL_DESCRIPTOR_REQUEST, TransferBufferLength)` -/
  descTransferBufferLength : Nat
  /-- `offsetof(struct _URB_CONTROL_DESCRIPTOR_REQUEST, TransferBuffer)` -/
  descTransferBuffer : Nat
  /-- `offsetof(struct _URB_CONTROL_DESCRIPTOR_REQUEST, TransferBufferMDL)` -/
  descTransferBufferMDL : Nat
  /-- `offsetof(struct _URB_CONTROL_DESCRIPTOR_REQUEST, DescriptorType)` -/
  descDescriptorType : Nat
  /-- `offsetof(struct _URB_CONTROL_DESCRIPTOR_REQUEST, LanguageId)` -/
  descLanguageId : Nat

/-- Read of a pointer-sized field (`PVOID`, `USBD_PIPE_HANDLE`, `PMDL`). -/
def readPointer (L : Layout) (m : Memory) (a : Nat) : Nat := readLE m a L.sizeofPointer

/-- The layout of the 32-bit Windows headers. -/
def x86 : Layout where
  sizeofPointer := 4
  hdrLength := 0
  hdrFunction := 2
  selInterface := 24
  ifLength := 0
  ifClass := 4
  ifSubClass := 5
  ifProtocol := 6
  ifNumberOfPipes := 12
  ifPipes := 16
  sizeofPipe := 20
  pipeMaximumPacketSize := 0
  pipeEndpointAddress := 2
  pipePipeType := 4
  pipePipeHandle := 8
  ctlPipeHandle := 16
  ctlTransferBufferLength := 24
  ctlTransferBuffer := 28
  ctlSetupPacket := 72
  ctlExPipeHandle := 16
  ctlExTransferBufferLength := 24
  ctlExTransferBuffer := 28
  ctlExSetupPacket := 72
  bulkPipeHandle := 16
  bulkTransferFlags := 20
  bulkTransferBufferLength := 24
  bulkTransferBuffer := 28
  bulkTransferBufferMDL := 32
  isoPipeHandle := 16
  isoTransferFlags := 20
  isoNumberOfPackets := 76
  descTransferBufferLength := 24
  descTransferBuffer := 28
  descTransferBufferMDL := 32
  descDescriptorType := 75
  descLanguageId := 76

/-! ## Constants of `usb.h` and `usb100.h` -/

def URB_FUNCTION_SELECT_CONFIGURATION : Nat := 0x0000
def URB_FUNCTION_CONTROL_TRANSFER : Nat := 0x0008
def URB_FUNCTION_BULK_OR_INTERRUPT_TRANSFER : Nat := 0x0009
def URB_FUNCTION_ISOCH_TRANSFER : Nat := 0x000A
def URB_FUNCTION_GET_DESCRIPTOR_FROM_DEVICE : Nat := 0x000B
def URB_FUNCTION_SET_DESCRIPTOR_TO_DEVICE : Nat := 0x000C
def URB_FUNCTION_GET_DESCRIPTOR_FROM_ENDPOINT : Nat := 0x0024
def URB_FUNCTION_SET_DESCRIPTOR_TO_ENDPOINT : Nat := 0x0025
def URB_FUNCTION_GET_DESCRIPTOR_FROM_INTERFACE : Nat := 0x0028
def URB_FUNCTION_SET_DESCRIPTOR_TO_INTERFACE : Nat := 0x0029
def URB_FUNCTION_CONTROL_TRANSFER_EX : Nat := 0x0032

def USB_DEVICE_DESCRIPTOR_TYPE : Nat := 0x01
def USB_CONFIGURATION_DESCRIPTOR_TYPE : Nat := 0x02
def USB_STRING_DESCRIPTOR_TYPE : Nat := 0x03

def UsbdPipeTypeControl : Nat := 0
def UsbdPipeTypeIsochronous : Nat := 1
def UsbdPipeTypeBulk : Nat := 2
def UsbdPipeTypeInterrupt : Nat := 3

/-! ## The endpoint table (`USBPcapTables`, not in the analysed source) -/

/-- An endpoint descriptor as the analyzer uses it: the fields `handle`, `type`,
`endpointAddress` and `deviceAddress` of `USBPCAP_ENDPOINT_INFO`. -/
structure USBPCAP_ENDPOINT_INFO where
  handle : Nat
  type : Nat
  endpointAddress : Nat
  deviceAddress : Nat
  deriving DecidableEq

/-- Modelled from the spec: the endpoint table of `USBPcapTables`, whose source
is missing.  The spec calls it a mapping from pipe identifier to endpoint
descriptor with at most one descriptor per identifier and no ordering semantics;
here one list entry per registered handle. -/
abbrev EndpointTable := List USBPCAP_ENDPOINT_INFO

/-- Modelled from the spec: `USBPcapGetEndpointInfo` of `USBPcapTables`, whose
source is missing; the spec's `lookup(pipe_id)`, which returns the currently
stored descriptor for the identifier, or nothing if it was never registered. -/
def USBPcapGetEndpointInfo (table : EndpointTable) (handle : Nat) :
    Option USBPCAP_ENDPOINT_INFO :=
  table.find? (fun e => e.handle == handle)

/-- Modelled from the spec: `USBPcapAddEndpointInfo` of `USBPcapTables`, whose
source is missing; the spec's `insert_or_replace`.  From the pipe record at
`Pipe` it extracts endpoint address, transfer type and pipe identifier, and
stores the descriptor with the device address supplied by the caller, replacing
any prior value for that identifier. -/
def USBPcapAddEndpointInfo (L : Layout) (m : Memory) (table : EndpointTable)
    (Pipe : Nat) (deviceAddress : Nat) : EndpointTable :=
  let info : USBPCAP_ENDPOINT_INFO :=
    { handle := readPointer L m (Pipe + L.pipePipeHandle)
      type := readULONG m (Pipe + L.pipePipeType)
      endpointAddress := readUCHAR m (Pipe + L.pipeEndpointAddress)
      deviceAddress := deviceAddress }
  info :: table.filter (fun e => e.handle != info.handle)

/-- The descriptor `USBPcapAddEndpointInfo` stores for the pipe record at `Pipe`. -/
def pipeEndpointInfo (L : Layout) (m : Memory) (Pipe : Nat) (deviceAddress : Nat) :
    USBPCAP_ENDPOINT_INFO :=
  { handle := readPointer L m (Pipe + L.pipePipeHandle)
    type := readULONG m (Pipe + L.pipePipeType)
    endpointAddress := readUCHAR m (Pipe + L.pipeEndpointAddress)
    deviceAddress := deviceAddress }

/-- The part of `ROOTHUB_DATA` the analyzer uses. -/
structure ROOTHUB_DATA where
  endpointTable : EndpointTable
  deriving DecidableEq

/-! ## Traces -/

/-- An argument of a `KdPrint` call. -/
inductive Arg where
  | num (v : Nat)
  | str (s : String)
  deriving DecidableEq

/-- The calls recorded in the trace, with their arguments. -/
inductive Event where
  | DkDbgStr (s : String)
  | DkDbgVal (s : String) (v : Nat)
  | KdPrint (fmt : String) (args : List Arg)
  | USBPcapGetEndpointInfo (handle : Nat)
  | USBPcapAddEndpointInfo (Pipe : Nat) (deviceAddress : Nat)
  deriving DecidableEq

/-- What a call of the analyzer leaves behind: the root hub data and the trace. -/
structure Outcome where
  hub : ROOTHUB_DATA
  trace : List Event
  deriving DecidableEq

/-! ## `USBPcapRetrieveEndpointInfo` -/

/-- `USBPcapRetrieveEndpointInfo(pRootHub, handle, pInfo)`.  The result is the
returned flag, the contents of `*pInfo` after the call, and the trace. -/
def USBPcapRetrieveEndpointInfo (pRootHub : ROOTHUB_DATA) (handle : Nat)
    (pInfo : USBPCAP_ENDPOINT_INFO) : Bool × USBPCAP_ENDPOINT_INFO × List Event :=
  match USBPcapGetEndpointInfo pRootHub.endpointTable handle with
  | some info =>
    (true, info,
      [Event.USBPcapGetEndpointInfo handle,
       Event.DkDbgVal "Found endpoint info" handle,
       Event.DkDbgVal "" info.type,
       Event.DkDbgVal "" info.endpointAddress,
       Event.DkDbgVal "" info.deviceAddress])
  | none =>
    (false, pInfo,
      [Event.USBPcapGetEndpointInfo handle,
       Event.DkDbgVal "Unable to find endpoint info" handle])

/-! ## `USBPcapPrintChars` -/

/-- The first loop of `USBPcapPrintChars`: one `KdPrint` per byte. -/
def printHex (m : Memory) (buffer : Nat) (length : Nat) : List Event :=
  (List.range length).map
    (fun i => Event.KdPrint "%02X " [Arg.num (readUCHAR m (buffer + i))])

/-- The second loop of `USBPcapPrintChars`: the character for a printable byte,
a dot otherwise. -/
def printText (m : Memory) (buffer : Nat) (length : Nat) : List Event :=
  (List.range length).map
    (fun i =>
      if readUCHAR m (buffer + i) ≥ 0x20 ∧ readUCHAR m (buffer + i) ≤ 0x7E then
        Event.KdPrint "%c" [Arg.num (readUCHAR m (buffer + i))]
      else
        Event.KdPrint "." [])

/-- `USBPcapPrintChars(text, buffer, length)`, `length` being a `ULONG`. -/
def USBPcapPrintChars (m : Memory) (text : String) (buffer : Nat) (length : Nat) :
    List Event :=
  [Event.KdPrint "%s HEX: " [Arg.str text]]
    ++ printHex m buffer length
    ++ [Event.KdPrint "\n%s TEXT: " [Arg.str text]]
    ++ printText m buffer length
    ++ [Event.KdPrint "\n" []]

/-! ## `USBPcapAnalyzeURB`: the walk over the interface records -/

/-- The `for` loop over the pipes of one interface.  The first argument is the
number of iterations left, `pInterface->NumberOfPipes - j`. -/
def pipeLoop (L : Layout) (m : Memory) (deviceAddress : Nat) :
    Nat → Nat → Nat → Outcome → Outcome
  | 0, _, _, o => o
  | n + 1, j, Pipe, o =>
    pipeLoop L m deviceAddress n ((j + 1) % 4294967296) (Pipe + L.sizeofPipe)
      { hub :=
          { endpointTable :=
              USBPcapAddEndpointInfo L m o.hub.endpointTable Pipe deviceAddress }
        trace := o.trace ++
          [Event.KdPrint
             "Pipe %d MaxPacketSize: %dEndpointAddress: %d PipeType: %dPipeHandle: %02x\n"
             [Arg.num j,
              Arg.num (readUSHORT m (Pipe + L.pipeMaximumPacketSize)),
              Arg.num (readUCHAR m (Pipe + L.pipeEndpointAddress)),
              Arg.num (readULONG m (Pipe + L.pipePipeType)),
              Arg.num (readPointer L m (Pipe + L.pipePipeHandle))],
           Event.USBPcapAddEndpointInfo Pipe deviceAddress] }

/-- The variables of the `while` loop in the `URB_FUNCTION_SELECT_CONFIGURATION`
case, with the root hub data and the trace. -/
structure WalkState where
  i : Nat
  interfaces_len : Nat
  pInterface : Nat
  out : Outcome
  deriving DecidableEq

/-- One execution of the body of the `while` loop. -/
def walkBody (L : Layout) (m : Memory) (deviceAddress : Nat) (s : WalkState) : WalkState :=
  let Length := readUSHORT m (s.pInterface + L.ifLength)
  let NumberOfPipes := readULONG m (s.pInterface + L.ifNumberOfPipes)
  { i := (s.i + 1) % 4294967296
    interfaces_len := (s.interfaces_len + 65536 - Length) % 65536
    pInterface := s.pInterface + Length
    out :=
      pipeLoop L m deviceAddress NumberOfPipes 0 (s.pInterface + L.ifPipes)
        { hub := s.out.hub
          trace := s.out.trace ++
            [Event.KdPrint
               "Interface %d Len: %d Class: %02x Subclass: %02xProtocol: %02x Number of Pipes: %d\n"
               [Arg.num s.i,
                Arg.num Length,
                Arg.num (readUCHAR m (s.pInterface + L.ifClass)),
                Arg.num (readUCHAR m (s.pInterface + L.ifSubClass)),
                Arg.num (readUCHAR m (s.pInterface + L.ifProtocol)),
                Arg.num NumberOfPipes]] } }

/-- The loop `while (interfaces_len > 0)`, allowed `fuel` iterations. -/
def walk (L : Layout) (m : Memory) (deviceAddress : Nat) : Nat → WalkState → Option WalkState
  | fuel, s =>
    if s.interfaces_len > 0 then
      match fuel with
      | 0 => none
      | fuel + 1 => walk L m deviceAddress fuel (walkBody L m deviceAddress s)
    else
      some s

/-- The state after at most `k` iterations of the `while` loop: the loop stops
earlier when `interfaces_len` is zero. -/
def walkSteps (L : Layout) (m : Memory) (deviceAddress : Nat) : Nat → WalkState → WalkState
  | 0, s => s
  | k + 1, s =>
    if s.interfaces_len > 0 then
      walkSteps L m deviceAddress k (walkBody L m deviceAddress s)
    else
      s

/-- The state in which the `while` loop is entered. -/
def walkInit (L : Layout) (m : Memory) (pUrb : Nat) (pRootHub : ROOTHUB_DATA) : WalkState :=
  let Length := readUSHORT m (pUrb + L.hdrLength)
  let interfaces_len := (Length + 65536 - L.selInterface % 65536) % 65536
  { i := 0
    interfaces_len := interfaces_len
    pInterface := pUrb + L.selInterface
    out :=
      { hub := pRootHub
        trace :=
          [Event.DkDbgStr "SELECT_CONFIGURATION",
           Event.KdPrint "Header Len: %d Interfaces_len: %d\n"
             [Arg.num Length, Arg.num interfaces_len]] } }

/-! ## `USBPcapAnalyzeURB` -/

/-- The body shared, up to the structure cast to, by the cases
`URB_FUNCTION_CONTROL_TRANSFER` and `URB_FUNCTION_CONTROL_TRANSFER_EX`. -/
def analyzeControlTransfer (m : Memory) (PipeHandle SetupPacket : Nat)
    (TransferBuffer TransferBufferLength : Nat) : List Event :=
  [Event.DkDbgStr "URB_FUNCTION_CONTROL_TRANSFER",
   Event.DkDbgVal "" PipeHandle]
    ++ USBPcapPrintChars m "Setup Packet" SetupPacket 8
    ++ (if TransferBuffer ≠ 0 then
          USBPcapPrintChars m "Transfer Buffer" TransferBuffer TransferBufferLength
        else [])

/-- The inner `switch (request->DescriptorType)` of the descriptor request case. -/
def descriptorTypeEvents (DescriptorType : Nat) : List Event :=
  if DescriptorType = USB_DEVICE_DESCRIPTOR_TYPE then
    [Event.DkDbgVal "USB_DEVICE_DESCRIPTOR_TYPE" DescriptorType]
  else if DescriptorType = USB_CONFIGURATION_DESCRIPTOR_TYPE then
    [Event.DkDbgVal "USB_CONFIGURATION_DESCRIPTOR_TYPE" DescriptorType]
  else if DescriptorType = USB_STRING_DESCRIPTOR_TYPE then
    [Event.DkDbgVal "USB_STRING_DESCRIPTOR_TYPE" DescriptorType]
  else
    []

/-- `USBPcapAnalyzeURB(pUrb, post, pRootHub)`: the `switch` on
`header->Function`.  The URB is the memory at `pUrb`.  In the bulk or interrupt
case the local `info` is uninitialised when `USBPcapRetrieveEndpointInfo` is
called, and neither it nor `epFound` is used afterwards: the call contributes
its debug output only. -/
def USBPcapAnalyzeURB (L : Layout) (fuel : Nat) (m : Memory) (pUrb : Nat) (post : Bool)
    (pRootHub : ROOTHUB_DATA) : Option Outcome :=
  let Function := readUSHORT m (pUrb + L.hdrFunction)
  if Function = URB_FUNCTION_SELECT_CONFIGURATION then
    if post = false then
      some { hub := pRootHub, trace := [] }
    else
      (walk L m 255 fuel (walkInit L m pUrb pRootHub)).map (fun s => s.out)
  else if Function = URB_FUNCTION_CONTROL_TRANSFER then
    some
      { hub := pRootHub
        trace :=
          analyzeControlTransfer m
            (readPointer L m (pUrb + L.ctlPipeHandle))
            (pUrb + L.ctlSetupPacket)
            (readPointer L m (pUrb + L.ctlTransferBuffer))
            (readULONG m (pUrb + L.ctlTransferBufferLength)) }
  else if Function = URB_FUNCTION_CONTROL_TRANSFER_EX then
    some
      { hub := pRootHub
        trace :=
          analyzeControlTransfer m
            (readPointer L m (pUrb + L.ctlExPipeHandle))
            (pUrb + L.ctlExSetupPacket)
            (readPointer L m (pUrb + L.ctlExTransferBuffer))
            (readULONG m (pUrb + L.ctlExTransferBufferLength)) }
  else if Function = URB_FUNCTION_BULK_OR_INTERRUPT_TRANSFER then
    let PipeHandle := readPointer L m (pUrb + L.bulkPipeHandle)
    let TransferBuffer := readPointer L m (pUrb + L.bulkTransferBuffer)
    let TransferBufferLength := readULONG m (pUrb + L.bulkTransferBufferLength)
    some
      { hub := pRootHub
        trace :=
          [Event.DkDbgStr "URB_FUNCTION_BULK_OR_INTERRUPT_TRANSFER",
           Event.DkDbgVal "" PipeHandle]
            ++ (USBPcapRetrieveEndpointInfo pRootHub PipeHandle
                  { handle := 0, type := 0, endpointAddress := 0, deviceAddress := 0 }).2.2
            ++ [Event.DkDbgVal "" (readULONG m (pUrb + L.bulkTransferFlags)),
                Event.DkDbgVal "" TransferBufferLength,
                Event.DkDbgVal "" TransferBuffer,
                Event.DkDbgVal "" (readPointer L m (pUrb + L.bulkTransferBufferMDL))]
            ++ (if TransferBuffer ≠ 0 then
                  USBPcapPrintChars m "Transfer Buffer" TransferBuffer TransferBufferLength
                else []) }
  else if Function = URB_FUNCTION_ISOCH_TRANSFER then
    some
      { hub := pRootHub
        trace :=
          [Event.DkDbgStr "URB_FUNCTION_ISOCH_TRANSFER",
           Event.DkDbgVal "" (readPointer L m (pUrb + L.isoPipeHandle)),
           Event.DkDbgVal "" (readULONG m (pUrb + L.isoTransferFlags)),
           Event.DkDbgVal "" (readULONG m (pUrb + L.isoNumberOfPackets))] }
  else if Function = URB_FUNCTION_GET_DESCRIPTOR_FROM_DEVICE
      ∨ Function = URB_FUNCTION_GET_DESCRIPTOR_FROM_ENDPOINT
      ∨ Function = URB_FUNCTION_GET_DESCRIPTOR_FROM_INTERFACE
      ∨ Function = URB_FUNCTION_SET_DESCRIPTOR_TO_DEVICE
      ∨ Function = URB_FUNCTION_SET_DESCRIPTOR_TO_ENDPOINT
      ∨ Function = URB_FUNCTION_SET_DESCRIPTOR_TO_INTERFACE then
    let TransferBuffer := readPointer L m (pUrb + L.descTransferBuffer)
    let TransferBufferLength := readULONG m (pUrb + L.descTransferBufferLength)
    some
      { hub := pRootHub
        trace :=
          [Event.DkDbgVal "URB_CONTROL_DESCRIPTOR_REQUEST" Function,
           Event.DkDbgVal "" TransferBufferLength,
           Event.DkDbgVal "" TransferBuffer,
           Event.DkDbgVal "" (readPointer L m (pUrb + L.descTransferBufferMDL))]
            ++ descriptorTypeEvents (readUCHAR m (pUrb + L.descDescriptorType))
            ++ [Event.DkDbgVal "" (readUSHORT m (pUrb + L.descLanguageId))]
            ++ (if TransferBuffer ≠ 0 then
                  USBPcapPrintChars m "Transfer Buffer" TransferBuffer TransferBufferLength
                else []) }
  else
    some { hub := pRootHub, trace := [Event.DkDbgVal "Unknown URB type" Function] }

/-! ## Vocabulary of the statements -/

/-- The memory that holds `bytes` from address `base` on and zero elsewhere. -/
def memOfBytes (base : Nat) (bytes : List Nat) : Memory :=
  fun a => if base ≤ a then bytes.getD (a - base) 0 else 0

/-- `PipeHandle` of the pipe record at `Pipe`. -/
def pipeHandleAt (L : Layout) (m : Memory) (Pipe : Nat) : Nat :=
  readPointer L m (Pipe + L.pipePipeHandle)

/-- `Length` of the interface record at `p`. -/
def interfaceLength (L : Layout) (m : Memory) (p : Nat) : Nat :=
  readUSHORT m (p + L.ifLength)

/-- `NumberOfPipes` of the interface record at `p`. -/
def interfaceNumberOfPipes (L : Layout) (m : Memory) (p : Nat) : Nat :=
  readULONG m (p + L.ifNumberOfPipes)

/-- The payload at `p` consists of exactly `n` interface records, each of which
declares a non-zero `Length`, and the declared lengths sum to `len`. -/
def ExactPayload (L : Layout) (m : Memory) : Nat → Nat → Nat → Prop
  | 0, _, len => len = 0
  | n + 1, p, len =>
    0 < interfaceLength L m p ∧ interfaceLength L m p ≤ len ∧
      ExactPayload L m n (p + interfaceLength L m p) (len - interfaceLength L m p)

/-- A `URB_FUNCTION_SELECT_CONFIGURATION` request at `pUrb` is well formed, with
`n` interface records: the header length covers the fixed part, and the
interface records, each of non-zero `Length`, fill exactly what is left. -/
def WellFormedSelectConfiguration (L : Layout) (m : Memory) (pUrb : Nat) (n : Nat) : Prop :=
  readUSHORT m (pUrb + L.hdrFunction) = URB_FUNCTION_SELECT_CONFIGURATION ∧
  L.selInterface ≤ readUSHORT m (pUrb + L.hdrLength) ∧
  ExactPayload L m n (pUrb + L.selInterface)
    (readUSHORT m (pUrb + L.hdrLength) - L.selInterface)

/-- The addresses of `n` consecutive pipe records, the first at `Pipe`. -/
def pipePointers (L : Layout) : Nat → Nat → List Nat
  | 0, _ => []
  | n + 1, Pipe => Pipe :: pipePointers L n (Pipe + L.sizeofPipe)

/-- The addresses of the pipe records of `n` consecutive interface records, the
first at `p`: in interface order, then in pipe order. -/
def payloadPipes (L : Layout) (m : Memory) : Nat → Nat → List Nat
  | 0, _ => []
  | n + 1, p =>
    pipePointers L (interfaceNumberOfPipes L m p) (p + L.ifPipes)
      ++ payloadPipes L m n (p + interfaceLength L m p)

/-- The `NumberOfPipes` fields of `n` consecutive interface records. -/
def payloadNumberOfPipes (L : Layout) (m : Memory) : Nat → Nat → List Nat
  | 0, _ => []
  | n + 1, p =>
    interfaceNumberOfPipes L m p :: payloadNumberOfPipes L m n (p + interfaceLength L m p)

/-- The `USBPcapAddEndpointInfo` calls of a trace, in order: pipe pointer and
device address. -/
def addCalls (t : List Event) : List (Nat × Nat) :=
  t.filterMap (fun e =>
    match e with
    | Event.USBPcapAddEndpointInfo Pipe deviceAddress => some (Pipe, deviceAddress)
    | _ => none)

/-- The `USBPcapGetEndpointInfo` calls of a trace, in order: the handle looked up. -/
def getCalls (t : List Event) : List Nat :=
  t.filterMap (fun e =>
    match e with
    | Event.USBPcapGetEndpointInfo handle => some handle
    | _ => none)

/-- The table after `USBPcapAddEndpointInfo` is called for each pipe record of
the list, in order. -/
def addAll (L : Layout) (m : Memory) (deviceAddress : Nat) (table : EndpointTable)
    (pipes : List Nat) : EndpointTable :=
  pipes.foldl (fun t Pipe => USBPcapAddEndpointInfo L m t Pipe deviceAddress) table

/-- The function codes that have a case of their own in the `switch`. -/
def knownFunctionCodes : List Nat :=
  [URB_FUNCTION_SELECT_CONFIGURATION,
   URB_FUNCTION_CONTROL_TRANSFER,
   URB_FUNCTION_CONTROL_TRANSFER_EX,
   URB_FUNCTION_BULK_OR_INTERRUPT_TRANSFER,
   URB_FUNCTION_ISOCH_TRANSFER,
   URB_FUNCTION_GET_DESCRIPTOR_FROM_DEVICE,
   URB_FUNCTION_GET_DESCRIPTOR_FROM_ENDPOINT,
   URB_FUNCTION_GET_DESCRIPTOR_FROM_INTERFACE,
   URB_FUNCTION_SET_DESCRIPTOR_TO_DEVICE,
   URB_FUNCTION_SET_DESCRIPTOR_TO_ENDPOINT,
   URB_FUNCTION_SET_DESCRIPTOR_TO_INTERFACE]

/-- The bytes `buffer[0]`, ..., `buffer[length - 1]`. -/
def bufferBytes (m : Memory) (buffer length : Nat) : List Nat :=
  (List.range length).map (fun i => readUCHAR m (buffer + i))

/-- The bytes a trace dumps in hexadecimal: the arguments of its `"%02X "` prints. -/
def hexBytes (t : List Event) : List Nat :=
  t.filterMap (fun e =>
    match e with
    | Event.KdPrint fmt [Arg.num v] => if fmt = "%02X " then some v else none
    | _ => none)

/-- The `text` arguments of the `USBPcapPrintChars` calls of a trace: each call
starts by printing `"%s HEX: "` with its `text`. -/
def dumpTexts (t : List Event) : List String :=
  t.filterMap (fun e =>
    match e with
    | Event.KdPrint fmt [Arg.str text] => if fmt = "%s HEX: " then some text else none
    | _ => none)

instance decExactPayload (L : Layout) (m : Memory) :
    ∀ n p len, Decidable (ExactPayload L m n p len)
  | 0, _, len => inferInstanceAs (Decidable (len = 0))
  | n + 1, _, _ =>
    @instDecidableAnd _ _ _ (@instDecidableAnd _ _ _ (decExactPayload L m n _ _))

instance decWellFormedSelectConfiguration (L : Layout) (m : Memory) (pUrb n : Nat) :
    Decidable (WellFormedSelectConfiguration L m pUrb n) :=
  inferInstanceAs (Decidable (_ ∧ _ ∧ _))

/-! ## The debugger output -/

/-- The upper-case hexadecimal digit of a value below 16. -/
def hexDigit (d : Nat) : Char :=
  if d < 10 then Char.ofNat (48 + d) else Char.ofNat (55 + d)

/-- The characters a `KdPrint` call sends to the debugger, for the conversions
that `USBPcapPrintChars` uses: `%s` with a string, `%c` with a character code
and `%02X` with a value below 256; every other character of the format is
printed as it is. -/
def formatKdPrint : List Char → List Arg → List Char
  | '%' :: 's' :: rest, Arg.str s :: args => s.toList ++ formatKdPrint rest args
  | '%' :: 'c' :: rest, Arg.num v :: args => Char.ofNat v :: formatKdPrint rest args
  | '%' :: '0' :: '2' :: 'X' :: rest, Arg.num v :: args =>
    hexDigit (v / 16) :: hexDigit (v % 16) :: formatKdPrint rest args
  | c :: rest, args => c :: formatKdPrint rest args
  | [], _ => []

/-- The characters one event prints: those of a `KdPrint`, none otherwise. -/
def printedBy : Event → List Char
  | Event.KdPrint fmt args => formatKdPrint fmt.toList args
  | _ => []

/-- The debugger output of the `KdPrint` calls of a trace. -/
def printed (t : List Event) : List Char :=
  (t.map printedBy).flatten

/-- The entry of the HEX line for a byte: its two upper-case hexadecimal
digits, followed by the blank that separates the entries. -/
def hexEntry (b : Nat) : List Char := [hexDigit (b / 16), hexDigit (b % 16), ' ']

/-- The character of the TEXT line for a byte: the byte itself when it is
printable, a dot otherwise. -/
def textChar (b : Nat) : Char :=
  if 0x20 ≤ b ∧ b ≤ 0x7E then Char.ofNat b else '.'

/-! ## Concrete requests -/

/-- A `URB_FUNCTION_SELECT_CONFIGURATION` request in the `x86` layout: header
length 80, one interface record of length 56 with two pipes, `pipeA` (handle
`0xA0`, bulk, endpoint address `0x81`) and `pipeB` (handle `0xB0`, interrupt,
endpoint address `0x02`). -/
def twoPipeUrb : List Nat :=
  [80, 0, 0, 0,  0, 0, 0, 0,  0, 0, 0, 0,  0, 0, 0, 0,  0, 0, 0, 0,  0, 0, 0, 0,
   56, 0, 0, 0,  8, 6, 0x50, 0,  1, 0, 0, 0,  2, 0, 0, 0,
   0, 2, 0x81, 0,  2, 0, 0, 0,  0xA0, 0, 0, 0,  0, 0, 0, 0,  0, 0, 0, 0,
   8, 0, 0x02, 0,  3, 0, 0, 0,  0xB0, 0, 0, 0,  0, 0, 0, 0,  0, 0, 0, 0]

/-- A `URB_FUNCTION_SELECT_CONFIGURATION` request in the `x86` layout whose
header length is 28, four bytes more than the fixed part, and whose other bytes
are all zero: the interface record at offset 24 declares `Length` 0. -/
def zeroLengthUrb : List Nat := [28, 0, 0, 0]

/-- A `URB_FUNCTION_SELECT_CONFIGURATION` request in the `x86` layout whose
header length is 28, so that 4 bytes of interface records are declared.  The
interface record at offset 24 declares `Length` 16 and no pipes.  The bytes
after it, past the declared total, read as an interface record at offset 40
with `Length` `0xFFF4`, one pipe, and at offset 56 a pipe record with endpoint
address `0x83`, type bulk and handle `0xC0`. -/
def overrunUrb : List Nat :=
  [28, 0, 0, 0,  0, 0, 0, 0,  0, 0, 0, 0,  0, 0, 0, 0,  0, 0, 0, 0,  0, 0, 0, 0,
   16, 0, 0, 0,  0, 0, 0, 0,  0, 0, 0, 0,  0, 0, 0, 0,
   0xF4, 0xFF, 0, 0,  0, 0, 0, 0,  0, 0, 0, 0,  1, 0, 0, 0,
   64, 0, 0x83, 0,  2, 0, 0, 0,  0xC0, 0, 0, 0,  0, 0, 0, 0,  0, 0, 0, 0]

/-- A `URB_FUNCTION_CONTROL_TRANSFER` request in the `x86` layout: pipe handle
`0xA0`, `TransferBufferLength` 18, `TransferBuffer` `NULL`, and the setup packet
`80 06 00 01 00 00 12 00` at offset 72. -/
def controlUrb : List Nat :=
  [80, 0, 8, 0,  0, 0, 0, 0,  0, 0, 0, 0,  0, 0, 0, 0,
   0xA0, 0, 0, 0,  0, 0, 0, 0,  18, 0, 0, 0,  0, 0, 0, 0,  0, 0, 0, 0,  0, 0, 0, 0,
   0, 0, 0, 0,  0, 0, 0, 0,  0, 0, 0, 0,  0, 0, 0, 0,
   0, 0, 0, 0,  0, 0, 0, 0,  0, 0, 0, 0,  0, 0, 0, 0,
   0x80, 6, 0, 1,  0, 0, 18, 0]

/-- A `URB_FUNCTION_BULK_OR_INTERRUPT_TRANSFER` request in the `x86` layout:
pipe handle `0xA0`, transfer flags 1, `TransferBufferLength` 2, `TransferBuffer`
pointing at offset 72, where the bytes `48 07` follow the request. -/
def bulkUrb : List Nat :=
  [72, 0, 9, 0,  0, 0, 0, 0,  0, 0, 0, 0,  0, 0, 0, 0,
   0xA0, 0, 0, 0,  1, 0, 0, 0,  2, 0, 0, 0,  0x48, 0x10, 0, 0,  0, 0, 0, 0,  0, 0, 0, 0,
   0, 0, 0, 0,  0, 0, 0, 0,  0, 0, 0, 0,  0, 0, 0, 0,
   0, 0, 0, 0,  0, 0, 0, 0,  0, 0, 0, 0,  0, 0, 0, 0,
   0x48, 0x07]

/-- A `URB_FUNCTION_SELECT_CONFIGURATION` request in the `x86` layout whose
header length, 8, is smaller than the offset 24 of the first interface record;
all other bytes are zero. -/
def shortHeaderUrb : List Nat := [8, 0, 0, 0]

/-! ## Lemmas: reads -/

theorem readLE_lt (m : Memory) (n : Nat) : ∀ a, readLE m a n < 256 ^ n := by
  induction n with
  | zero => intro a; simp [readLE]
  | succ n ih =>
    intro a
    have h := ih (a + 1)
    have h2 : m a % 256 < 256 := Nat.mod_lt _ (by decide)
    simp only [readLE, pow_succ]
    omega

theorem readUSHORT_lt (m : Memory) (a : Nat) : readUSHORT m a < 65536 := by
  have := readLE_lt m 2 a
  simpa [readUSHORT] using this

theorem readULONG_lt (m : Memory) (a : Nat) : readULONG m a < 4294967296 := by
  have := readLE_lt m 4 a
  simpa [readULONG] using this

/-! ## Lemmas: the endpoint table -/

theorem add_eq_cons (L : Layout) (m : Memory) (t : EndpointTable) (P d : Nat) :
    USBPcapAddEndpointInfo L m t P d =
      pipeEndpointInfo L m P d ::
        t.filter (fun e => e.handle != pipeHandleAt L m P) := rfl

theorem get_add_same (L : Layout) (m : Memory) (t : EndpointTable) (P d : Nat) :
    USBPcapGetEndpointInfo (USBPcapAddEndpointInfo L m t P d) (pipeHandleAt L m P) =
      some (pipeEndpointInfo L m P d) := by
  simp [add_eq_cons, USBPcapGetEndpointInfo, pipeEndpointInfo, pipeHandleAt]

theorem get_filter_ne (t : EndpointTable) (h k : Nat) (hne : h ≠ k) :
    USBPcapGetEndpointInfo (t.filter (fun e => e.handle != k)) h =
      USBPcapGetEndpointInfo t h := by
  induction t with
  | nil => rfl
  | cons e t ih =>
    unfold USBPcapGetEndpointInfo at ih ⊢
    by_cases hk : e.handle = k
    · have hh : ¬ e.handle = h := fun x => hne (x.symm.trans hk)
      rw [List.filter_cons_of_neg (by simp [hk]), List.find?_cons_of_neg _ (by simp [hh])]
      exact ih
    · rw [List.filter_cons_of_pos (by simp [hk])]
      by_cases hh : e.handle = h
      · rw [List.find?_cons_of_pos _ (by simp [hh]), List.find?_cons_of_pos _ (by simp [hh])]
      · rw [List.find?_cons_of_neg _ (by simp [hh]), List.find?_cons_of_neg _ (by simp [hh])]
        exact ih

theorem get_add_ne (L : Layout) (m : Memory) (t : EndpointTable) (P d h : Nat)
    (hne : h ≠ pipeHandleAt L m P) :
    USBPcapGetEndpointInfo (USBPcapAddEndpointInfo L m t P d) h =
      USBPcapGetEndpointInfo t h := by
  rw [add_eq_cons]
  have hh : ¬ (pipeEndpointInfo L m P d).handle = h := fun x => hne (x.symm)
  rw [← get_filter_ne t h (pipeHandleAt L m P) hne]
  unfold USBPcapGetEndpointInfo
  rw [List.find?_cons_of_neg _ (by simp [hh])]

theorem addAll_cons (L : Layout) (m : Memory) (d : Nat) (t : EndpointTable) (P : Nat)
    (ps : List Nat) :
    addAll L m d t (P :: ps) = addAll L m d (USBPcapAddEndpointInfo L m t P d) ps := rfl

theorem addAll_append (L : Layout) (m : Memory) (d : Nat) (t : EndpointTable)
    (ps qs : List Nat) :
    addAll L m d t (ps ++ qs) = addAll L m d (addAll L m d t ps) qs := by
  simp [addAll, List.foldl_append]

theorem get_addAll_of_not_mem (L : Layout) (m : Memory) (d h : Nat) (ps : List Nat) :
    ∀ t : EndpointTable, (∀ P ∈ ps, pipeHandleAt L m P ≠ h) →
      USBPcapGetEndpointInfo (addAll L m d t ps) h = USBPcapGetEndpointInfo t h := by
  induction ps with
  | nil => intro t _; rfl
  | cons P ps ih =>
    intro t hall
    rw [addAll_cons, ih _ (fun Q hQ => hall Q (List.mem_cons_of_mem _ hQ))]
    exact get_add_ne L m t P d h (fun x => hall P (List.mem_cons_self _ _) x.symm)

theorem get_addAll_last (L : Layout) (m : Memory) (d : Nat) (t : EndpointTable)
    (pre post : List Nat) (P : Nat)
    (hpost : ∀ Q ∈ post, pipeHandleAt L m Q ≠ pipeHandleAt L m P) :
    USBPcapGetEndpointInfo (addAll L m d t (pre ++ P :: post)) (pipeHandleAt L m P) =
      some (pipeEndpointInfo L m P d) := by
  rw [addAll_append, addAll_cons, get_addAll_of_not_mem L m d _ post _ hpost]
  exact get_add_same L m _ P d

/-! ## Lemmas: the walk -/

theorem addCalls_append (a b : List Event) : addCalls (a ++ b) = addCalls a ++ addCalls b := by
  simp [addCalls, List.filterMap_append]

theorem getCalls_append (a b : List Event) : getCalls (a ++ b) = getCalls a ++ getCalls b := by
  simp [getCalls, List.filterMap_append]

theorem pipeLoop_table (L : Layout) (m : Memory) (d : Nat) :
    ∀ (c j P : Nat) (o : Outcome),
      (pipeLoop L m d c j P o).hub.endpointTable =
        addAll L m d o.hub.endpointTable (pipePointers L c P) := by
  intro c
  induction c with
  | zero => intro j P o; rfl
  | succ c ih =>
    intro j P o
    rw [pipeLoop, ih, pipePointers, addAll_cons]

theorem pipeLoop_addCalls (L : Layout) (m : Memory) (d : Nat) :
    ∀ (c j P : Nat) (o : Outcome),
      addCalls (pipeLoop L m d c j P o).trace =
        addCalls o.trace ++ (pipePointers L c P).map (fun Q => (Q, d)) := by
  intro c
  induction c with
  | zero => intro j P o; simp [pipeLoop, pipePointers]
  | succ c ih =>
    intro j P o
    rw [pipeLoop, ih, pipePointers]
    simp [addCalls_append, addCalls]

theorem pipeLoop_getCalls (L : Layout) (m : Memory) (d : Nat) :
    ∀ (c j P : Nat) (o : Outcome),
      getCalls (pipeLoop L m d c j P o).trace = getCalls o.trace := by
  intro c
  induction c with
  | zero => intro j P o; rfl
  | succ c ih =>
    intro j P o
    rw [pipeLoop, ih]
    simp [getCalls_append, getCalls]

theorem pipePointers_length (L : Layout) : ∀ (c P : Nat), (pipePointers L c P).length = c := by
  intro c
  induction c with
  | zero => intro P; rfl
  | succ c ih => intro P; simp [pipePointers, ih]

theorem payloadPipes_length (L : Layout) (m : Memory) :
    ∀ (n p : Nat), (payloadPipes L m n p).length = (payloadNumberOfPipes L m n p).sum := by
  intro n
  induction n with
  | zero => intro p; rfl
  | succ n ih =>
    intro p
    simp [payloadPipes, payloadNumberOfPipes, pipePointers_length, ih]

theorem exactPayload_le (L : Layout) (m : Memory) :
    ∀ (n p len : Nat), ExactPayload L m n p len → n ≤ len := by
  intro n
  induction n with
  | zero => intro p len _; exact Nat.zero_le _
  | succ n ih =>
    intro p len h
    obtain ⟨h0, h1, h2⟩ := h
    have := ih _ _ h2
    omega

theorem walkBody_i (L : Layout) (m : Memory) (d : Nat) (s : WalkState) :
    (walkBody L m d s).i = (s.i + 1) % 4294967296 := rfl

theorem walkBody_len (L : Layout) (m : Memory) (d : Nat) (s : WalkState) :
    (walkBody L m d s).interfaces_len =
      (s.interfaces_len + 65536 - interfaceLength L m s.pInterface) % 65536 := rfl

theorem walkBody_pInterface (L : Layout) (m : Memory) (d : Nat) (s : WalkState) :
    (walkBody L m d s).pInterface = s.pInterface + interfaceLength L m s.pInterface := rfl

theorem walkBody_table (L : Layout) (m : Memory) (d : Nat) (s : WalkState) :
    (walkBody L m d s).out.hub.endpointTable =
      addAll L m d s.out.hub.endpointTable
        (pipePointers L (interfaceNumberOfPipes L m s.pInterface) (s.pInterface + L.ifPipes)) := by
  simp [walkBody, pipeLoop_table, interfaceNumberOfPipes]

theorem walkBody_addCalls (L : Layout) (m : Memory) (d : Nat) (s : WalkState) :
    addCalls (walkBody L m d s).out.trace =
      addCalls s.out.trace ++
        (pipePointers L (interfaceNumberOfPipes L m s.pInterface)
          (s.pInterface + L.ifPipes)).map (fun Q => (Q, d)) := by
  unfold walkBody
  simp only [interfaceNumberOfPipes]
  rw [pipeLoop_addCalls, addCalls_append]
  simp [addCalls]

theorem walkBody_getCalls (L : Layout) (m : Memory) (d : Nat) (s : WalkState) :
    getCalls (walkBody L m d s).out.trace = getCalls s.out.trace := by
  unfold walkBody
  simp only []
  rw [pipeLoop_getCalls, getCalls_append]
  simp [getCalls]

theorem walkSteps_exact (L : Layout) (m : Memory) (d : Nat) :
    ∀ (n : Nat) (s : WalkState),
      ExactPayload L m n s.pInterface s.interfaces_len →
      s.interfaces_len < 65536 → s.i + n < 4294967296 →
      (walkSteps L m d n s).i = s.i + n ∧
      (walkSteps L m d n s).interfaces_len = 0 ∧
      (walkSteps L m d n s).out.hub.endpointTable =
        addAll L m d s.out.hub.endpointTable (payloadPipes L m n s.pInterface) ∧
      addCalls (walkSteps L m d n s).out.trace =
        addCalls s.out.trace ++ (payloadPipes L m n s.pInterface).map (fun Q => (Q, d)) ∧
      getCalls (walkSteps L m d n s).out.trace = getCalls s.out.trace := by
  intro n
  induction n with
  | zero =>
    intro s h _ _
    simp only [ExactPayload] at h
    simp [walkSteps, h, payloadPipes, addAll]
  | succ n ih =>
    intro s h hlt hi
    obtain ⟨h0, h1, h2⟩ := h
    have hpos : s.interfaces_len > 0 := by omega
    have hlen : (walkBody L m d s).interfaces_len =
        s.interfaces_len - interfaceLength L m s.pInterface := by
      rw [walkBody_len]; omega
    have hI : (walkBody L m d s).i = s.i + 1 := by
      rw [walkBody_i]; omega
    have := ih (walkBody L m d s)
      (by rw [walkBody_pInterface, hlen]; exact h2)
      (by rw [hlen]; omega) (by rw [hI]; omega)
    obtain ⟨a, b, c, e, f⟩ := this
    simp only [walkSteps, hpos, if_true]
    refine ⟨by rw [a, hI]; omega, b, ?_, ?_, ?_⟩
    · rw [c, walkBody_table, walkBody_pInterface, payloadPipes, addAll_append]
    · rw [e, walkBody_addCalls, walkBody_pInterface, payloadPipes, List.map_append,
        List.append_assoc]
    · rw [f, walkBody_getCalls]

theorem walk_exact (L : Layout) (m : Memory) (d : Nat) :
    ∀ (n : Nat) (s : WalkState) (fuel : Nat),
      ExactPayload L m n s.pInterface s.interfaces_len →
      s.interfaces_len < 65536 →
      walk L m d fuel s = if n ≤ fuel then some (walkSteps L m d n s) else none := by
  intro n
  induction n with
  | zero =>
    intro s fuel h _
    simp only [ExactPayload] at h
    unfold walk
    simp [h, walkSteps]
  | succ n ih =>
    intro s fuel h hlt
    obtain ⟨h0, h1, h2⟩ := h
    have hpos : s.interfaces_len > 0 := by omega
    have hlen : (walkBody L m d s).interfaces_len =
        s.interfaces_len - interfaceLength L m s.pInterface := by
      rw [walkBody_len]; omega
    unfold walk
    cases fuel with
    | zero => simp [hpos]
    | succ fuel =>
      simp only [hpos, if_true, walkSteps]
      rw [ih (walkBody L m d s) fuel
        (by rw [walkBody_pInterface, hlen]; exact h2) (by rw [hlen]; omega)]
      simp

theorem walkInit_len (L : Layout) (m : Memory) (pUrb : Nat) (hub : ROOTHUB_DATA)
    (h : L.selInterface ≤ readUSHORT m (pUrb + L.hdrLength)) :
    (walkInit L m pUrb hub).interfaces_len =
      readUSHORT m (pUrb + L.hdrLength) - L.selInterface := by
  have := readUSHORT_lt m (pUrb + L.hdrLength)
  simp only [walkInit]
  omega

/-- What the analysis of a well-formed `URB_FUNCTION_SELECT_CONFIGURATION`
request with `post = TRUE` does: it needs exactly `n` iterations of the loop,
and then the table has received the pipe records of the payload in order. -/
theorem analyze_wellFormed (L : Layout) (m : Memory) (pUrb n : Nat) (hub : ROOTHUB_DATA)
    (hwf : WellFormedSelectConfiguration L m pUrb n) :
    ∃ s : WalkState,
      (∀ fuel, walk L m 255 fuel (walkInit L m pUrb hub) = if n ≤ fuel then some s else none) ∧
      (∀ fuel, USBPcapAnalyzeURB L fuel m pUrb true hub =
        if n ≤ fuel then some s.out else none) ∧
      s.i = n ∧ s.interfaces_len = 0 ∧
      s.out.hub.endpointTable =
        addAll L m 255 hub.endpointTable (payloadPipes L m n (pUrb + L.selInterface)) ∧
      addCalls s.out.trace =
        (payloadPipes L m n (pUrb + L.selInterface)).map (fun Q => (Q, 255)) ∧
      getCalls s.out.trace = [] := by
  obtain ⟨hfn, hoff, hex⟩ := hwf
  have hlen := walkInit_len L m pUrb hub hoff
  have hlt := readUSHORT_lt m (pUrb + L.hdrLength)
  have hn := exactPayload_le L m _ _ _ hex
  have hex2 : ExactPayload L m n (walkInit L m pUrb hub).pInterface
      (walkInit L m pUrb hub).interfaces_len := by
    rw [hlen]; exact hex
  have hw := walk_exact L m 255 n (walkInit L m pUrb hub)
  have hs := walkSteps_exact L m 255 n (walkInit L m pUrb hub) hex2
    (by rw [hlen]; omega) (by simp only [walkInit]; omega)
  obtain ⟨a, b, c, e, f⟩ := hs
  refine ⟨walkSteps L m 255 n (walkInit L m pUrb hub), ?_, ?_, ?_, b, ?_, ?_, ?_⟩
  · intro fuel
    exact hw fuel hex2 (by rw [hlen]; omega)
  · intro fuel
    unfold USBPcapAnalyzeURB
    simp only [hfn, if_true]
    rw [hw fuel hex2 (by rw [hlen]; omega)]
    by_cases hf : n ≤ fuel <;> simp [hf]
  · simpa [walkInit] using a
  · simpa [walkInit] using c
  · simpa [walkInit, addCalls] using e
  · simpa [walkInit, getCalls] using f

theorem walk_zero_length (L : Layout) (m : Memory) (d : Nat) :
    ∀ (fuel : Nat) (s : WalkState),
      interfaceLength L m s.pInterface = 0 → 0 < s.interfaces_len → s.interfaces_len < 65536 →
      walk L m d fuel s = none := by
  intro fuel
  induction fuel with
  | zero => intro s _ hpos _; unfold walk; simp [hpos]
  | succ fuel ih =>
    intro s hz hpos hlt
    unfold walk
    simp only [gt_iff_lt, hpos, if_true]
    apply ih
    · rw [walkBody_pInterface, hz]; exact hz
    · rw [walkBody_len, hz]; omega
    · rw [walkBody_len, hz]; omega

theorem exists_last_occurrence (f : Nat → Nat) (h : Nat) :
    ∀ ps : List Nat, (∃ P ∈ ps, f P = h) →
      ∃ pre P post, ps = pre ++ P :: post ∧ f P = h ∧ ∀ Q ∈ post, f Q ≠ h := by
  intro ps
  induction ps with
  | nil => rintro ⟨P, hP, _⟩; cases hP
  | cons x xs ih =>
    intro hex
    by_cases hxs : ∃ P ∈ xs, f P = h
    · obtain ⟨pre, P, post, e, hP, hpost⟩ := ih hxs
      exact ⟨x :: pre, P, post, by rw [e]; rfl, hP, hpost⟩
    · obtain ⟨P, hP, hf⟩ := hex
      rcases List.mem_cons.mp hP with rfl | hin
      · exact ⟨[], P, xs, rfl, hf, fun Q hQ hq => hxs ⟨Q, hQ, hq⟩⟩
      · exact absurd ⟨P, hin, hf⟩ hxs

theorem retrieve_of_get_some (hub : ROOTHUB_DATA) (h : Nat) (pInfo info : USBPCAP_ENDPOINT_INFO)
    (hg : USBPcapGetEndpointInfo hub.endpointTable h = some info) :
    (USBPcapRetrieveEndpointInfo hub h pInfo).1 = true ∧
    (USBPcapRetrieveEndpointInfo hub h pInfo).2.1 = info := by
  simp [USBPcapRetrieveEndpointInfo, hg]

theorem retrieve_congr (hub hub2 : ROOTHUB_DATA) (h : Nat) (pInfo : USBPCAP_ENDPOINT_INFO)
    (hg : USBPcapGetEndpointInfo hub.endpointTable h =
      USBPcapGetEndpointInfo hub2.endpointTable h) :
    USBPcapRetrieveEndpointInfo hub h pInfo = USBPcapRetrieveEndpointInfo hub2 h pInfo := by
  simp [USBPcapRetrieveEndpointInfo, hg]

theorem analyze_select (L : Layout) (fuel : Nat) (m : Memory) (pUrb : Nat) (post : Bool)
    (hub : ROOTHUB_DATA)
    (hfn : readUSHORT m (pUrb + L.hdrFunction) = URB_FUNCTION_SELECT_CONFIGURATION) :
    USBPcapAnalyzeURB L fuel m pUrb post hub =
      if post = false then some { hub := hub, trace := [] }
      else (walk L m 255 fuel (walkInit L m pUrb hub)).map (fun s => s.out) := by
  unfold USBPcapAnalyzeURB
  simp only [hfn, if_true]

theorem analyze_control (L : Layout) (fuel : Nat) (m : Memory) (pUrb : Nat) (post : Bool)
    (hub : ROOTHUB_DATA)
    (hfn : readUSHORT m (pUrb + L.hdrFunction) = URB_FUNCTION_CONTROL_TRANSFER) :
    USBPcapAnalyzeURB L fuel m pUrb post hub =
      some
        { hub := hub
          trace :=
            analyzeControlTransfer m
              (readPointer L m (pUrb + L.ctlPipeHandle))
              (pUrb + L.ctlSetupPacket)
              (readPointer L m (pUrb + L.ctlTransferBuffer))
              (readULONG m (pUrb + L.ctlTransferBufferLength)) } := by
  unfold USBPcapAnalyzeURB
  simp [hfn, URB_FUNCTION_CONTROL_TRANSFER, URB_FUNCTION_SELECT_CONFIGURATION]

theorem analyze_controlEx (L : Layout) (fuel : Nat) (m : Memory) (pUrb : Nat) (post : Bool)
    (hub : ROOTHUB_DATA)
    (hfn : readUSHORT m (pUrb + L.hdrFunction) = URB_FUNCTION_CONTROL_TRANSFER_EX) :
    USBPcapAnalyzeURB L fuel m pUrb post hub =
      some
        { hub := hub
          trace :=
            analyzeControlTransfer m
              (readPointer L m (pUrb + L.ctlExPipeHandle))
              (pUrb + L.ctlExSetupPacket)
              (readPointer L m (pUrb + L.ctlExTransferBuffer))
              (readULONG m (pUrb + L.ctlExTransferBufferLength)) } := by
  unfold USBPcapAnalyzeURB
  simp [hfn, URB_FUNCTION_CONTROL_TRANSFER, URB_FUNCTION_SELECT_CONFIGURATION,
    URB_FUNCTION_CONTROL_TRANSFER_EX]

theorem analyze_bulk (L : Layout) (fuel : Nat) (m : Memory) (pUrb : Nat) (post : Bool)
    (hub : ROOTHUB_DATA)
    (hfn : readUSHORT m (pUrb + L.hdrFunction) = URB_FUNCTION_BULK_OR_INTERRUPT_TRANSFER) :
    USBPcapAnalyzeURB L fuel m pUrb post hub =
      some
        { hub := hub
          trace :=
            [Event.DkDbgStr "URB_FUNCTION_BULK_OR_INTERRUPT_TRANSFER",
             Event.DkDbgVal "" (readPointer L m (pUrb + L.bulkPipeHandle))]
            ++ (USBPcapRetrieveEndpointInfo hub (readPointer L m (pUrb + L.bulkPipeHandle))
                  { handle := 0, type := 0, endpointAddress := 0, deviceAddress := 0 }).2.2
            ++ [Event.DkDbgVal "" (readULONG m (pUrb + L.bulkTransferFlags)),
                Event.DkDbgVal "" (readULONG m (pUrb + L.bulkTransferBufferLength)),
                Event.DkDbgVal "" (readPointer L m (pUrb + L.bulkTransferBuffer)),
                Event.DkDbgVal "" (readPointer L m (pUrb + L.bulkTransferBufferMDL))]
            ++ (if readPointer L m (pUrb + L.bulkTransferBuffer) ≠ 0 then
                  USBPcapPrintChars m "Transfer Buffer"
                    (readPointer L m (pUrb + L.bulkTransferBuffer))
                    (readULONG m (pUrb + L.bulkTransferBufferLength))
                else []) } := by
  unfold USBPcapAnalyzeURB
  simp [hfn, URB_FUNCTION_CONTROL_TRANSFER, URB_FUNCTION_SELECT_CONFIGURATION,
    URB_FUNCTION_CONTROL_TRANSFER_EX, URB_FUNCTION_BULK_OR_INTERRUPT_TRANSFER]

theorem analyze_isoch (L : Layout) (fuel : Nat) (m : Memory) (pUrb : Nat) (post : Bool)
    (hub : ROOTHUB_DATA)
    (hfn : readUSHORT m (pUrb + L.hdrFunction) = URB_FUNCTION_ISOCH_TRANSFER) :
    USBPcapAnalyzeURB L fuel m pUrb post hub =
      some
        { hub := hub
          trace :=
            [Event.DkDbgStr "URB_FUNCTION_ISOCH_TRANSFER",
             Event.DkDbgVal "" (readPointer L m (pUrb + L.isoPipeHandle)),
             Event.DkDbgVal "" (readULONG m (pUrb + L.isoTransferFlags)),
             Event.DkDbgVal "" (readULONG m (pUrb + L.isoNumberOfPackets))] } := by
  unfold USBPcapAnalyzeURB
  simp [hfn, URB_FUNCTION_CONTROL_TRANSFER, URB_FUNCTION_SELECT_CONFIGURATION,
    URB_FUNCTION_CONTROL_TRANSFER_EX, URB_FUNCTION_BULK_OR_INTERRUPT_TRANSFER,
    URB_FUNCTION_ISOCH_TRANSFER]

theorem analyze_descriptor (L : Layout) (fuel : Nat) (m : Memory) (pUrb : Nat) (post : Bool)
    (hub : ROOTHUB_DATA)
    (hfn : readUSHORT m (pUrb + L.hdrFunction) = URB_FUNCTION_GET_DESCRIPTOR_FROM_DEVICE
      ∨ readUSHORT m (pUrb + L.hdrFunction) = URB_FUNCTION_GET_DESCRIPTOR_FROM_ENDPOINT
      ∨ readUSHORT m (pUrb + L.hdrFunction) = URB_FUNCTION_GET_DESCRIPTOR_FROM_INTERFACE
      ∨ readUSHORT m (pUrb + L.hdrFunction) = URB_FUNCTION_SET_DESCRIPTOR_TO_DEVICE
      ∨ readUSHORT m (pUrb + L.hdrFunction) = URB_FUNCTION_SET_DESCRIPTOR_TO_ENDPOINT
      ∨ readUSHORT m (pUrb + L.hdrFunction) = URB_FUNCTION_SET_DESCRIPTOR_TO_INTERFACE) :
    USBPcapAnalyzeURB L fuel m pUrb post hub =
      some
        { hub := hub
          trace :=
            [Event.DkDbgVal "URB_CONTROL_DESCRIPTOR_REQUEST" (readUSHORT m (pUrb + L.hdrFunction)),
             Event.DkDbgVal "" (readULONG m (pUrb + L.descTransferBufferLength)),
             Event.DkDbgVal "" (readPointer L m (pUrb + L.descTransferBuffer)),
             Event.DkDbgVal "" (readPointer L m (pUrb + L.descTransferBufferMDL))]
            ++ descriptorTypeEvents (readUCHAR m (pUrb + L.descDescriptorType))
            ++ [Event.DkDbgVal "" (readUSHORT m (pUrb + L.descLanguageId))]
            ++ (if readPointer L m (pUrb + L.descTransferBuffer) ≠ 0 then
                  USBPcapPrintChars m "Transfer Buffer"
                    (readPointer L m (pUrb + L.descTransferBuffer))
                    (readULONG m (pUrb + L.descTransferBufferLength))
                else []) } := by
  unfold USBPcapAnalyzeURB
  simp only []
  have h0 : readUSHORT m (pUrb + L.hdrFunction) ≠ URB_FUNCTION_SELECT_CONFIGURATION := by
    rcases hfn with h | h | h | h | h | h <;> rw [h] <;> decide
  have h1 : readUSHORT m (pUrb + L.hdrFunction) ≠ URB_FUNCTION_CONTROL_TRANSFER := by
    rcases hfn with h | h | h | h | h | h <;> rw [h] <;> decide
  have h2 : readUSHORT m (pUrb + L.hdrFunction) ≠ URB_FUNCTION_CONTROL_TRANSFER_EX := by
    rcases hfn with h | h | h | h | h | h <;> rw [h] <;> decide
  have h3 : readUSHORT m (pUrb + L.hdrFunction) ≠ URB_FUNCTION_BULK_OR_INTERRUPT_TRANSFER := by
    rcases hfn with h | h | h | h | h | h <;> rw [h] <;> decide
  have h4 : readUSHORT m (pUrb + L.hdrFunction) ≠ URB_FUNCTION_ISOCH_TRANSFER := by
    rcases hfn with h | h | h | h | h | h <;> rw [h] <;> decide
  rw [if_neg h0, if_neg h1, if_neg h2, if_neg h3, if_neg h4, if_pos hfn]

theorem analyze_unknown (L : Layout) (fuel : Nat) (m : Memory) (pUrb : Nat) (post : Bool)
    (hub : ROOTHUB_DATA)
    (hfn : readUSHORT m (pUrb + L.hdrFunction) ∉ knownFunctionCodes) :
    USBPcapAnalyzeURB L fuel m pUrb post hub =
      some { hub := hub
             trace := [Event.DkDbgVal "Unknown URB type" (readUSHORT m (pUrb + L.hdrFunction))] } := by
  unfold USBPcapAnalyzeURB
  simp only [knownFunctionCodes, List.mem_cons, List.mem_singleton, List.not_mem_nil,
    or_false, not_or] at hfn
  obtain ⟨a0, a1, a2, a3, a4, a5, a6, a7, a8, a9, a10⟩ := hfn
  simp only []
  rw [if_neg a0, if_neg a1, if_neg a2, if_neg a3, if_neg a4, if_neg (by tauto)]

theorem hexBytes_append (a b : List Event) : hexBytes (a ++ b) = hexBytes a ++ hexBytes b := by
  simp [hexBytes, List.filterMap_append]

theorem dumpTexts_append (a b : List Event) :
    dumpTexts (a ++ b) = dumpTexts a ++ dumpTexts b := by
  simp [dumpTexts, List.filterMap_append]

theorem hexBytes_printHex (m : Memory) (buffer length : Nat) :
    hexBytes (printHex m buffer length) = bufferBytes m buffer length := by
  simp only [hexBytes, printHex, bufferBytes, List.filterMap_map]
  exact congrFun (List.filterMap_eq_map (fun i => readUCHAR m (buffer + i))) _

theorem hexBytes_printText (m : Memory) (buffer length : Nat) :
    hexBytes (printText m buffer length) = [] := by
  simp only [hexBytes, printText, List.filterMap_map, List.filterMap_eq_nil_iff]
  intro i _
  simp only [Function.comp]
  split_ifs <;> simp

theorem hexBytes_printChars (m : Memory) (text : String) (buffer length : Nat) :
    hexBytes (USBPcapPrintChars m text buffer length) = bufferBytes m buffer length := by
  unfold USBPcapPrintChars
  rw [hexBytes_append, hexBytes_append, hexBytes_append, hexBytes_append, hexBytes_printHex,
    hexBytes_printText]
  simp [hexBytes]

theorem dumpTexts_printHex (m : Memory) (buffer length : Nat) :
    dumpTexts (printHex m buffer length) = [] := by
  simp only [dumpTexts, printHex, List.filterMap_map, List.filterMap_eq_nil_iff]
  intro i _
  simp

theorem dumpTexts_printText (m : Memory) (buffer length : Nat) :
    dumpTexts (printText m buffer length) = [] := by
  simp only [dumpTexts, printText, List.filterMap_map, List.filterMap_eq_nil_iff]
  intro i _
  simp only [Function.comp]
  split_ifs <;> simp

theorem dumpTexts_printChars (m : Memory) (text : String) (buffer length : Nat) :
    dumpTexts (USBPcapPrintChars m text buffer length) = [text] := by
  unfold USBPcapPrintChars
  rw [dumpTexts_append, dumpTexts_append, dumpTexts_append, dumpTexts_append,
    dumpTexts_printHex, dumpTexts_printText]
  simp [dumpTexts]

theorem getCalls_printChars (m : Memory) (text : String) (buffer length : Nat) :
    getCalls (USBPcapPrintChars m text buffer length) = [] := by
  simp only [getCalls, List.filterMap_eq_nil_iff]
  intro e he
  simp only [USBPcapPrintChars, printHex, printText, List.mem_append, List.mem_map,
    List.mem_singleton] at he
  rcases he with (((rfl | ⟨i, _, rfl⟩) | rfl) | ⟨i, _, rfl⟩) | rfl
  · rfl
  · rfl
  · rfl
  · split_ifs <;> rfl
  · rfl

theorem getCalls_retrieve (hub : ROOTHUB_DATA) (h : Nat) (pInfo : USBPCAP_ENDPOINT_INFO) :
    getCalls (USBPcapRetrieveEndpointInfo hub h pInfo).2.2 = [h] := by
  unfold USBPcapRetrieveEndpointInfo
  cases USBPcapGetEndpointInfo hub.endpointTable h <;> rfl

theorem readLE_congr (m m2 : Memory) (p : Nat) (h : ∀ a, p ≤ a → m2 a = m a) :
    ∀ (n k : Nat), readLE m2 (p + k) n = readLE m (p + k) n := by
  intro n
  induction n with
  | zero => intro k; rfl
  | succ n ih =>
    intro k
    simp only [readLE]
    rw [h (p + k) (Nat.le_add_right _ _), Nat.add_assoc, ih (k + 1)]

theorem printChars_congr (m m2 : Memory) (p : Nat) (h : ∀ a, p ≤ a → m2 a = m a)
    (text : String) (k length : Nat) :
    USBPcapPrintChars m2 text (p + k) length = USBPcapPrintChars m text (p + k) length := by
  have hb : ∀ i, readUCHAR m2 (p + k + i) = readUCHAR m (p + k + i) := by
    intro i
    rw [Nat.add_assoc]
    exact readLE_congr m m2 p h 1 (k + i)
  simp only [USBPcapPrintChars, printHex, printText, hb]

theorem dumpTexts_retrieve (hub : ROOTHUB_DATA) (h : Nat) (pInfo : USBPCAP_ENDPOINT_INFO) :
    dumpTexts (USBPcapRetrieveEndpointInfo hub h pInfo).2.2 = [] := by
  unfold USBPcapRetrieveEndpointInfo
  cases USBPcapGetEndpointInfo hub.endpointTable h <;> rfl

theorem hexBytes_retrieve (hub : ROOTHUB_DATA) (h : Nat) (pInfo : USBPCAP_ENDPOINT_INFO) :
    hexBytes (USBPcapRetrieveEndpointInfo hub h pInfo).2.2 = [] := by
  unfold USBPcapRetrieveEndpointInfo
  cases USBPcapGetEndpointInfo hub.endpointTable h <;> rfl

theorem dumpTexts_descriptorTypeEvents (t : Nat) : dumpTexts (descriptorTypeEvents t) = [] := by
  unfold descriptorTypeEvents
  split_ifs <;> rfl

theorem hexBytes_descriptorTypeEvents (t : Nat) : hexBytes (descriptorTypeEvents t) = [] := by
  unfold descriptorTypeEvents
  split_ifs <;> rfl

theorem control_trace_facts (m : Memory) (PipeHandle SetupPacket TransferBuffer
    TransferBufferLength : Nat) :
    dumpTexts (analyzeControlTransfer m PipeHandle SetupPacket TransferBuffer
        TransferBufferLength) =
      "Setup Packet" :: (if TransferBuffer ≠ 0 then ["Transfer Buffer"] else []) ∧
    hexBytes (analyzeControlTransfer m PipeHandle SetupPacket TransferBuffer
        TransferBufferLength) =
      bufferBytes m SetupPacket 8 ++
        (if TransferBuffer ≠ 0 then bufferBytes m TransferBuffer TransferBufferLength
         else []) ∧
    getCalls (analyzeControlTransfer m PipeHandle SetupPacket TransferBuffer
        TransferBufferLength) = [] := by
  unfold analyzeControlTransfer
  refine ⟨?_, ?_, ?_⟩
  · rw [dumpTexts_append, dumpTexts_append, dumpTexts_printChars]
    by_cases h : TransferBuffer = 0
    · simp only [h, ne_eq, not_true_eq_false, if_false]; simp [dumpTexts]
    · simp only [h, ne_eq, not_false_eq_true, if_true, dumpTexts_printChars]; simp [dumpTexts]
  · rw [hexBytes_append, hexBytes_append, hexBytes_printChars]
    by_cases h : TransferBuffer = 0
    · simp only [h, ne_eq, not_true_eq_false, if_false]; simp [hexBytes]
    · simp only [h, ne_eq, not_false_eq_true, if_true, hexBytes_printChars]; simp [hexBytes]
  · rw [getCalls_append, getCalls_append, getCalls_printChars]
    by_cases h : TransferBuffer = 0
    · simp only [h, ne_eq, not_true_eq_false, if_false]; simp [getCalls]
    · simp only [h, ne_eq, not_false_eq_true, if_true, getCalls_printChars]; simp [getCalls]

/-! ## Lemmas: requests other than `SELECT_CONFIGURATION` -/

theorem addCalls_printChars (m : Memory) (text : String) (buffer length : Nat) :
    addCalls (USBPcapPrintChars m text buffer length) = [] := by
  simp only [addCalls, List.filterMap_eq_nil_iff]
  intro e he
  simp only [USBPcapPrintChars, printHex, printText, List.mem_append, List.mem_map,
    List.mem_singleton] at he
  rcases he with (((rfl | ⟨i, _, rfl⟩) | rfl) | ⟨i, _, rfl⟩) | rfl
  · rfl
  · rfl
  · rfl
  · split_ifs <;> rfl
  · rfl

theorem addCalls_retrieve (hub : ROOTHUB_DATA) (h : Nat) (pInfo : USBPCAP_ENDPOINT_INFO) :
    addCalls (USBPcapRetrieveEndpointInfo hub h pInfo).2.2 = [] := by
  unfold USBPcapRetrieveEndpointInfo
  cases USBPcapGetEndpointInfo hub.endpointTable h <;> rfl

theorem addCalls_descriptorTypeEvents (t : Nat) : addCalls (descriptorTypeEvents t) = [] := by
  unfold descriptorTypeEvents
  split_ifs <;> rfl

theorem addCalls_control (m : Memory) (PipeHandle SetupPacket TransferBuffer
    TransferBufferLength : Nat) :
    addCalls (analyzeControlTransfer m PipeHandle SetupPacket TransferBuffer
        TransferBufferLength) = [] := by
  unfold analyzeControlTransfer
  rw [addCalls_append, addCalls_append, addCalls_printChars]
  by_cases h : TransferBuffer = 0
  · simp only [h, ne_eq, not_true_eq_false, if_false]; simp [addCalls]
  · simp only [h, ne_eq, not_false_eq_true, if_true, addCalls_printChars]; simp [addCalls]

/-- What the analysis of a request that is not a `SELECT_CONFIGURATION` request
does to the registry: nothing, and it returns for any fuel. -/
theorem analyze_not_select (L : Layout) (fuel : Nat) (m : Memory) (pUrb : Nat)
    (post : Bool) (hub : ROOTHUB_DATA)
    (hfn : readUSHORT m (pUrb + L.hdrFunction) ≠ URB_FUNCTION_SELECT_CONFIGURATION) :
    ∃ t, USBPcapAnalyzeURB L fuel m pUrb post hub = some { hub := hub, trace := t } ∧
      addCalls t = [] ∧
      ∀ fuel2 post2, USBPcapAnalyzeURB L fuel2 m pUrb post2 hub =
        some { hub := hub, trace := t } := by
  by_cases hk : readUSHORT m (pUrb + L.hdrFunction) ∈ knownFunctionCodes
  · simp only [knownFunctionCodes, List.mem_cons, List.mem_singleton, List.not_mem_nil,
      or_false] at hk
    rcases hk with h | h | h | h | h | h | h | h | h | h | h
    · exact absurd h hfn
    · exact ⟨_, analyze_control L fuel m pUrb post hub h, addCalls_control m _ _ _ _,
        fun fuel2 post2 => analyze_control L fuel2 m pUrb post2 hub h⟩
    · exact ⟨_, analyze_controlEx L fuel m pUrb post hub h, addCalls_control m _ _ _ _,
        fun fuel2 post2 => analyze_controlEx L fuel2 m pUrb post2 hub h⟩
    · refine ⟨_, analyze_bulk L fuel m pUrb post hub h, ?_,
        fun fuel2 post2 => analyze_bulk L fuel2 m pUrb post2 hub h⟩
      simp only [addCalls_append]
      rw [addCalls_retrieve]
      by_cases hb : readPointer L m (pUrb + L.bulkTransferBuffer) = 0
      · rw [if_neg (not_not.mpr hb)]; simp [addCalls]
      · rw [if_pos hb, addCalls_printChars]; simp [addCalls]
    · exact ⟨_, analyze_isoch L fuel m pUrb post hub h, rfl,
        fun fuel2 post2 => analyze_isoch L fuel2 m pUrb post2 hub h⟩
    all_goals
      refine ⟨_, analyze_descriptor L fuel m pUrb post hub (by simp [h]), ?_,
        fun fuel2 post2 => analyze_descriptor L fuel2 m pUrb post2 hub (by simp [h])⟩
      simp only [addCalls_append]
      rw [addCalls_descriptorTypeEvents]
      by_cases hb : readPointer L m (pUrb + L.descTransferBuffer) = 0
      · rw [if_neg (not_not.mpr hb)]; simp [addCalls]
      · rw [if_pos hb, addCalls_printChars]; simp [addCalls]
  · exact ⟨_, analyze_unknown L fuel m pUrb post hub hk, rfl,
      fun fuel2 post2 => analyze_unknown L fuel2 m pUrb post2 hub hk⟩

/-! ## Lemmas: lookups and the running count -/

theorem get_some_mem (t : EndpointTable) (h : Nat) (e : USBPCAP_ENDPOINT_INFO)
    (hg : USBPcapGetEndpointInfo t h = some e) : e ∈ t ∧ e.handle = h := by
  unfold USBPcapGetEndpointInfo at hg
  exact ⟨List.mem_of_find?_eq_some hg, by simpa using List.find?_some hg⟩

theorem get_isSome_iff (t : EndpointTable) (h : Nat) :
    (USBPcapGetEndpointInfo t h).isSome = true ↔ ∃ e ∈ t, e.handle = h := by
  unfold USBPcapGetEndpointInfo
  rw [List.find?_isSome]
  simp

theorem retrieve_found_iff (hub : ROOTHUB_DATA) (h : Nat) (pInfo : USBPCAP_ENDPOINT_INFO) :
    (USBPcapRetrieveEndpointInfo hub h pInfo).1 =
      (USBPcapGetEndpointInfo hub.endpointTable h).isSome := by
  unfold USBPcapRetrieveEndpointInfo
  cases USBPcapGetEndpointInfo hub.endpointTable h <;> rfl

theorem walk_some_iff (L : Layout) (m : Memory) (d : Nat) :
    ∀ (fuel : Nat) (s f : WalkState),
      walk L m d fuel s = some f ↔
        ∃ k, k ≤ fuel ∧ f = walkSteps L m d k s ∧ f.interfaces_len = 0 ∧
          ∀ j, j < k → (walkSteps L m d j s).interfaces_len ≠ 0 := by
  intro fuel
  induction fuel with
  | zero =>
    intro s f
    unfold walk
    by_cases hp : s.interfaces_len > 0
    · simp only [hp, if_true]
      constructor
      · intro h; cases h
      · rintro ⟨k, hk, rfl, hz, _⟩
        have : k = 0 := by omega
        subst this
        simp only [walkSteps] at hz
        omega
    · simp only [hp, if_false, Option.some.injEq]
      constructor
      · rintro rfl
        exact ⟨0, Nat.le_refl _, rfl, by omega, fun j hj => by omega⟩
      · rintro ⟨k, hk, rfl, _, _⟩
        have : k = 0 := by omega
        subst this
        rfl
  | succ fuel ih =>
    intro s f
    unfold walk
    by_cases hp : s.interfaces_len > 0
    · simp only [hp, if_true]
      rw [ih]
      constructor
      · rintro ⟨k, hk, rfl, hz, hall⟩
        refine ⟨k + 1, by omega, by simp [walkSteps, hp], ?_, ?_⟩
        · exact hz
        · intro j hj
          cases j with
          | zero => simp only [walkSteps]; omega
          | succ j =>
            simp only [walkSteps, hp, if_true]
            exact hall j (by omega)
      · rintro ⟨k, hk, rfl, hz, hall⟩
        cases k with
        | zero => simp only [walkSteps] at hz; omega
        | succ k =>
          refine ⟨k, by omega, by simp [walkSteps, hp], ?_, ?_⟩
          · simpa [walkSteps, hp] using hz
          · intro j hj
            have := hall (j + 1) (by omega)
            simpa [walkSteps, hp] using this
    · simp only [hp, if_false, Option.some.injEq]
      constructor
      · rintro rfl
        exact ⟨0, Nat.zero_le _, rfl, by omega, fun j hj => by omega⟩
      · rintro ⟨k, hk, rfl, _, _⟩
        cases k with
        | zero => rfl
        | succ k => simp [walkSteps, hp]

theorem walkInit_len_lt (L : Layout) (m : Memory) (pUrb : Nat) (hub : ROOTHUB_DATA) :
    (walkInit L m pUrb hub).interfaces_len < 65536 := by
  simp only [walkInit]
  exact Nat.mod_lt _ (by decide)

theorem walkSteps_len_lt (L : Layout) (m : Memory) (d : Nat) :
    ∀ (k : Nat) (s : WalkState), s.interfaces_len < 65536 →
      (walkSteps L m d k s).interfaces_len < 65536 := by
  intro k
  induction k with
  | zero => intro s h; exact h
  | succ k ih =>
    intro s h
    simp only [walkSteps]
    split_ifs
    · apply ih
      rw [walkBody_len]
      exact Nat.mod_lt _ (by decide)
    · exact h

/-! ## Lemmas: the debugger output -/

theorem printed_append (a b : List Event) : printed (a ++ b) = printed a ++ printed b := by
  simp [printed]

theorem printed_singleton (e : Event) : printed [e] = printedBy e := by
  simp [printed]

theorem printedBy_printHex (m : Memory) (buffer length : Nat) :
    (printHex m buffer length).map printedBy = (bufferBytes m buffer length).map hexEntry := by
  simp only [printHex, bufferBytes, List.map_map]
  rfl

theorem printedBy_printText (m : Memory) (buffer length : Nat) :
    (printText m buffer length).map printedBy =
      (bufferBytes m buffer length).map (fun b => [textChar b]) := by
  simp only [printText, bufferBytes, List.map_map]
  apply List.map_congr_left
  intro i _
  simp only [Function.comp, textChar]
  by_cases h : readUCHAR m (buffer + i) ≥ 0x20 ∧ readUCHAR m (buffer + i) ≤ 0x7E
  · rw [if_pos h, if_pos h]; rfl
  · rw [if_neg h, if_neg h]; rfl

theorem printed_printText (m : Memory) (buffer length : Nat) :
    printed (printText m buffer length) = (bufferBytes m buffer length).map textChar := by
  unfold printed
  rw [printedBy_printText]
  induction bufferBytes m buffer length with
  | nil => rfl
  | cons b bs ih => simp [ih]

theorem bufferBytes_length (m : Memory) (buffer length : Nat) :
    (bufferBytes m buffer length).length = length := by
  simp [bufferBytes]

theorem bufferBytes_getElem? (m : Memory) (buffer length i : Nat) (h : i < length) :
    (bufferBytes m buffer length)[i]? = some (readUCHAR m (buffer + i)) := by
  simp [bufferBytes, List.getElem?_map, List.getElem?_range h]

theorem printChars_congr_buffer (m m2 : Memory) (text : String) (buffer length : Nat)
    (h : ∀ i, i < length → readUCHAR m2 (buffer + i) = readUCHAR m (buffer + i)) :
    USBPcapPrintChars m2 text buffer length = USBPcapPrintChars m text buffer length := by
  have h1 : printHex m2 buffer length = printHex m buffer length := by
    unfold printHex
    apply List.map_congr_left
    intro i hi
    rw [h i (List.mem_range.mp hi)]
  have h2 : printText m2 buffer length = printText m buffer length := by
    unfold printText
    apply List.map_congr_left
    intro i hi
    simp only [h i (List.mem_range.mp hi)]
  simp only [USBPcapPrintChars, h1, h2]

/-! ## The claims -/

/-- C1: for every `SELECT_CONFIGURATION` request analysed with `post = TRUE`
whose interface records each declare a non-zero `Length` and whose declared
lengths sum exactly to `UrbHeader.Length` minus the offset of the first
interface record (`n` records), the walk terminates after exactly `n`
iterations (fuel `n` is enough, less is not), having counted `n` interfaces,
and the `USBPcapAddEndpointInfo` calls are exactly one per pipe record, in
interface order and then pipe order, with device address 255; their number is
the sum of the `NumberOfPipes` fields.  The insertions are performed: the table
after the walk is the table before it with `USBPcapAddEndpointInfo` applied for
each of these pipe records, in that order.  When the remaining byte count is
zero, `n` is zero: no interface is visited, no insertion is performed and the
root hub data is what it was. -/
theorem C1_exact_walk (L : Layout) (m : Memory) (pUrb n : Nat) (pRootHub : ROOTHUB_DATA)
    (hwf : WellFormedSelectConfiguration L m pUrb n) :
    ∃ s : WalkState,
      (∀ fuel, walk L m 255 fuel (walkInit L m pUrb pRootHub) =
        if n ≤ fuel then some s else none) ∧
      (∀ fuel, USBPcapAnalyzeURB L fuel m pUrb true pRootHub =
        if n ≤ fuel then some s.out else none) ∧
      s.i = n ∧ s.interfaces_len = 0 ∧
      addCalls s.out.trace =
        (payloadPipes L m n (pUrb + L.selInterface)).map (fun Q => (Q, 255)) ∧
      (addCalls s.out.trace).length =
        (payloadNumberOfPipes L m n (pUrb + L.selInterface)).sum ∧
      s.out.hub.endpointTable =
        addAll L m 255 pRootHub.endpointTable (payloadPipes L m n (pUrb + L.selInterface)) ∧
      (readUSHORT m (pUrb + L.hdrLength) - L.selInterface = 0 →
        n = 0 ∧ s.i = 0 ∧ addCalls s.out.trace = [] ∧ s.out.hub = pRootHub) := by
  obtain ⟨s, h1, h2, h3, h4, h5, h6, _⟩ := analyze_wellFormed L m pUrb n pRootHub hwf
  refine ⟨s, h1, h2, h3, h4, h6, ?_, h5, ?_⟩
  · rw [h6, List.length_map, payloadPipes_length]
  · intro hz
    have hn := exactPayload_le L m _ _ _ hwf.2.2
    have hn0 : n = 0 := by omega
    subst hn0
    refine ⟨rfl, h3, by rw [h6]; rfl, ?_⟩
    have ht : s.out.hub.endpointTable = pRootHub.endpointTable := by
      rw [h5]; rfl
    cases hs : s.out.hub with
    | mk t =>
      cases pRootHub with
      | mk t0 =>
        rw [hs] at ht
        exact congrArg ROOTHUB_DATA.mk ht

theorem C1_exact_walk_witness :
    WellFormedSelectConfiguration x86 (memOfBytes 4096 twoPipeUrb) 4096 1 ∧
    ∃ s : WalkState,
      (∀ fuel, walk x86 (memOfBytes 4096 twoPipeUrb) 255 fuel
          (walkInit x86 (memOfBytes 4096 twoPipeUrb) 4096 { endpointTable := [] }) =
        if 1 ≤ fuel then some s else none) ∧
      (∀ fuel, USBPcapAnalyzeURB x86 fuel (memOfBytes 4096 twoPipeUrb) 4096 true
          { endpointTable := [] } =
        if 1 ≤ fuel then some s.out else none) ∧
      s.i = 1 ∧ s.interfaces_len = 0 ∧
      addCalls s.out.trace =
        (payloadPipes x86 (memOfBytes 4096 twoPipeUrb) 1 (4096 + x86.selInterface)).map
          (fun Q => (Q, 255)) ∧
      (addCalls s.out.trace).length =
        (payloadNumberOfPipes x86 (memOfBytes 4096 twoPipeUrb) 1
          (4096 + x86.selInterface)).sum ∧
      s.out.hub.endpointTable =
        addAll x86 (memOfBytes 4096 twoPipeUrb) 255 []
          (payloadPipes x86 (memOfBytes 4096 twoPipeUrb) 1 (4096 + x86.selInterface)) ∧
      (readUSHORT (memOfBytes 4096 twoPipeUrb) (4096 + x86.hdrLength) - x86.selInterface = 0 →
        1 = 0 ∧ s.i = 0 ∧ addCalls s.out.trace = [] ∧ s.out.hub = { endpointTable := [] }) :=
  ⟨by decide, C1_exact_walk x86 (memOfBytes 4096 twoPipeUrb) 4096 1 { endpointTable := [] }
    (by decide)⟩

/-- C2 (the code at the failing input): the request `zeroLengthUrb` is a
`SELECT_CONFIGURATION` request whose remaining byte count is 4 and whose first
interface record declares `Length` 0; analysed with `post = TRUE`, the walk is
still running after any number of iterations, whatever the registry. -/
theorem C2_zero_length_loops_forever (pRootHub : ROOTHUB_DATA) (fuel : Nat) :
    readUSHORT (memOfBytes 4096 zeroLengthUrb) (4096 + x86.hdrFunction) =
        URB_FUNCTION_SELECT_CONFIGURATION ∧
    (walkInit x86 (memOfBytes 4096 zeroLengthUrb) 4096 pRootHub).interfaces_len = 4 ∧
    interfaceLength x86 (memOfBytes 4096 zeroLengthUrb) (4096 + x86.selInterface) = 0 ∧
    USBPcapAnalyzeURB x86 fuel (memOfBytes 4096 zeroLengthUrb) 4096 true pRootHub = none := by
  refine ⟨by decide, by simp only [walkInit]; decide, by decide, ?_⟩
  rw [analyze_select x86 fuel _ 4096 true pRootHub (by decide)]
  rw [walk_zero_length x86 _ 255 fuel _ (by simp only [walkInit]; decide)
    (by simp only [walkInit]; decide) (by simp only [walkInit]; decide)]
  rfl

/-- C3 (the code at the failing input): in the request `overrunUrb` the
remaining byte count is 4 and the first interface record declares `Length` 16.
Analysed with `post = TRUE` on an empty registry, the walk does not stop at that
record: it ends after two iterations, its only `USBPcapAddEndpointInfo` call is
for the pipe record at address 4152, which lies past the end of the request
(4096 + 28), and the handle `0xC0` of that record is registered. -/
theorem C3_overrun_walks_on :
    (walkInit x86 (memOfBytes 4096 overrunUrb) 4096 { endpointTable := [] }).interfaces_len = 4 ∧
    interfaceLength x86 (memOfBytes 4096 overrunUrb) (4096 + x86.selInterface) = 16 ∧
    ∃ s : WalkState,
      walk x86 (memOfBytes 4096 overrunUrb) 255 2
        (walkInit x86 (memOfBytes 4096 overrunUrb) 4096 { endpointTable := [] }) = some s ∧
      USBPcapAnalyzeURB x86 2 (memOfBytes 4096 overrunUrb) 4096 true { endpointTable := [] } =
        some s.out ∧
      s.i = 2 ∧
      addCalls s.out.trace = [(4152, 255)] ∧
      4096 + readUSHORT (memOfBytes 4096 overrunUrb) (4096 + x86.hdrLength) ≤ 4152 ∧
      USBPcapGetEndpointInfo s.out.hub.endpointTable 0xC0 =
        some { handle := 0xC0, type := 2, endpointAddress := 0x83, deviceAddress := 255 } := by
  refine ⟨by decide, by decide, ?_⟩
  refine ⟨_, rfl, ?_⟩
  decide

/-- C4: for every `SELECT_CONFIGURATION` request and every registry state,
`USBPcapAnalyzeURB` with `post = FALSE` returns at once, for any fuel: the root
hub data is what it was and the trace is empty, so there is no
`USBPcapAddEndpointInfo` call and no `USBPcapGetEndpointInfo` call. -/
theorem C4_forward_leg_noop (L : Layout) (fuel : Nat) (m : Memory) (pUrb : Nat)
    (pRootHub : ROOTHUB_DATA)
    (hfn : readUSHORT m (pUrb + L.hdrFunction) = URB_FUNCTION_SELECT_CONFIGURATION) :
    ∃ o : Outcome,
      USBPcapAnalyzeURB L fuel m pUrb false pRootHub = some o ∧
      o.hub = pRootHub ∧ o.trace = [] ∧ addCalls o.trace = [] ∧ getCalls o.trace = [] := by
  refine ⟨{ hub := pRootHub, trace := [] }, ?_, rfl, rfl, rfl, rfl⟩
  rw [analyze_select L fuel m pUrb false pRootHub hfn]
  rfl

theorem C4_forward_leg_noop_witness :
    readUSHORT (memOfBytes 4096 twoPipeUrb) (4096 + x86.hdrFunction) =
        URB_FUNCTION_SELECT_CONFIGURATION ∧
    ∃ o : Outcome,
      USBPcapAnalyzeURB x86 0 (memOfBytes 4096 twoPipeUrb) 4096 false
          { endpointTable :=
              [{ handle := 7, type := 3, endpointAddress := 1, deviceAddress := 255 }] } =
        some o ∧
      o.hub =
        { endpointTable :=
            [{ handle := 7, type := 3, endpointAddress := 1, deviceAddress := 255 }] } ∧
      o.trace = [] ∧ addCalls o.trace = [] ∧ getCalls o.trace = [] :=
  ⟨by decide, C4_forward_leg_noop x86 0 (memOfBytes 4096 twoPipeUrb) 4096 _ (by decide)⟩

/-- C5: after the analysis of a well-formed `SELECT_CONFIGURATION` request with
`post = TRUE` (which returns for every fuel of at least `n`), every pipe handle
`h` that occurs in a pipe record of the payload has a last pipe record `P`
carrying it, and `USBPcapRetrieveEndpointInfo` for `h` returns `TRUE` with the
transfer type and endpoint address of `P` and device address 255.  A payload of
one interface with two pipes of distinct handles, analysed on an empty registry,
leaves two entries, one for each pipe.  A registration under a handle that is
already registered replaces the earlier descriptor. -/
theorem C5_registered_pipes_retrievable (L : Layout) (m : Memory) (pUrb n : Nat)
    (pRootHub : ROOTHUB_DATA) (hwf : WellFormedSelectConfiguration L m pUrb n) :
    ∃ o : Outcome,
      (∀ fuel, n ≤ fuel → USBPcapAnalyzeURB L fuel m pUrb true pRootHub = some o) ∧
      (∀ h, (∃ P ∈ payloadPipes L m n (pUrb + L.selInterface), pipeHandleAt L m P = h) →
        ∃ pre P post,
          payloadPipes L m n (pUrb + L.selInterface) = pre ++ P :: post ∧
          pipeHandleAt L m P = h ∧ (∀ Q ∈ post, pipeHandleAt L m Q ≠ h) ∧
          ∀ pInfo, (USBPcapRetrieveEndpointInfo o.hub h pInfo).1 = true ∧
            (USBPcapRetrieveEndpointInfo o.hub h pInfo).2.1 =
              { handle := h
                type := readULONG m (P + L.pipePipeType)
                endpointAddress := readUCHAR m (P + L.pipeEndpointAddress)
                deviceAddress := 255 }) ∧
      (n = 1 → interfaceNumberOfPipes L m (pUrb + L.selInterface) = 2 →
        pipeHandleAt L m (pUrb + L.selInterface + L.ifPipes) ≠
          pipeHandleAt L m (pUrb + L.selInterface + L.ifPipes + L.sizeofPipe) →
        pRootHub.endpointTable = [] →
        o.hub.endpointTable.length = 2 ∧
        USBPcapGetEndpointInfo o.hub.endpointTable
            (pipeHandleAt L m (pUrb + L.selInterface + L.ifPipes)) =
          some (pipeEndpointInfo L m (pUrb + L.selInterface + L.ifPipes) 255) ∧
        USBPcapGetEndpointInfo o.hub.endpointTable
            (pipeHandleAt L m (pUrb + L.selInterface + L.ifPipes + L.sizeofPipe)) =
          some (pipeEndpointInfo L m (pUrb + L.selInterface + L.ifPipes + L.sizeofPipe) 255)) ∧
      (∀ (t : EndpointTable) (P1 P2 d1 d2 : Nat) (pInfo : USBPCAP_ENDPOINT_INFO),
        pipeHandleAt L m P1 = pipeHandleAt L m P2 →
        (USBPcapRetrieveEndpointInfo
          { endpointTable :=
              USBPcapAddEndpointInfo L m (USBPcapAddEndpointInfo L m t P1 d1) P2 d2 }
          (pipeHandleAt L m P1) pInfo).2.1 = pipeEndpointInfo L m P2 d2) := by
  obtain ⟨s, _, h2, _, _, h5, _, _⟩ := analyze_wellFormed L m pUrb n pRootHub hwf
  refine ⟨s.out, ?_, ?_, ?_, ?_⟩
  · intro fuel hf
    rw [h2 fuel, if_pos hf]
  · intro h hex
    obtain ⟨pre, P, post, e, hP, hpost⟩ := exists_last_occurrence (pipeHandleAt L m) h _ hex
    refine ⟨pre, P, post, e, hP, hpost, ?_⟩
    intro pInfo
    have hg : USBPcapGetEndpointInfo s.out.hub.endpointTable h =
        some (pipeEndpointInfo L m P 255) := by
      rw [h5, e, ← hP]
      exact get_addAll_last L m 255 _ pre post P (by rw [hP]; exact hpost)
    have := retrieve_of_get_some s.out.hub h pInfo _ hg
    refine ⟨this.1, ?_⟩
    rw [this.2, ← hP]
    rfl
  · intro hn hnp hne hempty
    subst hn
    have hpipes : payloadPipes L m 1 (pUrb + L.selInterface) =
        [pUrb + L.selInterface + L.ifPipes, pUrb + L.selInterface + L.ifPipes + L.sizeofPipe] := by
      simp [payloadPipes, hnp, pipePointers]
    rw [h5, hpipes, hempty]
    refine ⟨?_, ?_, ?_⟩
    · have hne2 : ¬ (pipeEndpointInfo L m (pUrb + L.selInterface + L.ifPipes) 255).handle =
          pipeHandleAt L m (pUrb + L.selInterface + L.ifPipes + L.sizeofPipe) := hne
      simp [addAll, add_eq_cons, hne2]
    · exact get_addAll_last L m 255 [] [] [_] _ (by simpa using hne.symm)
    · exact get_addAll_last L m 255 [] [_] [] _ (by simp)
  · intro t P1 P2 d1 d2 pInfo he
    have hg := get_add_same L m (USBPcapAddEndpointInfo L m t P1 d1) P2 d2
    rw [← he] at hg
    exact (retrieve_of_get_some ⟨_⟩ _ pInfo _ hg).2

theorem C5_registered_pipes_retrievable_witness :
    WellFormedSelectConfiguration x86 (memOfBytes 4096 twoPipeUrb) 4096 1 ∧
    ∃ o : Outcome,
      USBPcapAnalyzeURB x86 1 (memOfBytes 4096 twoPipeUrb) 4096 true { endpointTable := [] } =
        some o ∧
      o.hub.endpointTable.length = 2 ∧
      USBPcapGetEndpointInfo o.hub.endpointTable 0xA0 =
        some { handle := 0xA0, type := UsbdPipeTypeBulk, endpointAddress := 0x81,
               deviceAddress := 255 } ∧
      USBPcapGetEndpointInfo o.hub.endpointTable 0xB0 =
        some { handle := 0xB0, type := UsbdPipeTypeInterrupt, endpointAddress := 0x02,
               deviceAddress := 255 } := by
  refine ⟨by decide, ?_⟩
  obtain ⟨o, h1, _, h3, _⟩ :=
    C5_registered_pipes_retrievable x86 (memOfBytes 4096 twoPipeUrb) 4096 1
      { endpointTable := [] } (by decide)
  obtain ⟨a, b, c⟩ := h3 rfl (by decide) (by decide) rfl
  exact ⟨o, h1 1 (Nat.le_refl 1), a, b, c⟩

/-- C6: for every well-formed `SELECT_CONFIGURATION` request analysed with
`post = TRUE` and every pipe handle `B` that no pipe record of its payload
carries, `USBPcapRetrieveEndpointInfo` for `B` gives the same result (flag,
descriptor written to the caller and debug output) after the analysis as
before it. -/
theorem C6_other_handles_untouched (L : Layout) (m : Memory) (pUrb n : Nat)
    (pRootHub : ROOTHUB_DATA) (hwf : WellFormedSelectConfiguration L m pUrb n)
    (B : Nat)
    (hB : ∀ P ∈ payloadPipes L m n (pUrb + L.selInterface), pipeHandleAt L m P ≠ B) :
    ∃ o : Outcome,
      (∀ fuel, n ≤ fuel → USBPcapAnalyzeURB L fuel m pUrb true pRootHub = some o) ∧
      ∀ pInfo, USBPcapRetrieveEndpointInfo o.hub B pInfo =
        USBPcapRetrieveEndpointInfo pRootHub B pInfo := by
  obtain ⟨s, _, h2, _, _, h5, _, _⟩ := analyze_wellFormed L m pUrb n pRootHub hwf
  refine ⟨s.out, ?_, ?_⟩
  · intro fuel hf
    rw [h2 fuel, if_pos hf]
  · intro pInfo
    apply retrieve_congr
    rw [h5]
    exact get_addAll_of_not_mem L m 255 B _ _ hB

theorem C6_other_handles_untouched_witness :
    WellFormedSelectConfiguration x86 (memOfBytes 4096 twoPipeUrb) 4096 1 ∧
    (∀ P ∈ payloadPipes x86 (memOfBytes 4096 twoPipeUrb) 1 (4096 + x86.selInterface),
      pipeHandleAt x86 (memOfBytes 4096 twoPipeUrb) P ≠ 0x55) ∧
    ∃ o : Outcome,
      (∀ fuel, 1 ≤ fuel →
        USBPcapAnalyzeURB x86 fuel (memOfBytes 4096 twoPipeUrb) 4096 true
          { endpointTable :=
              [{ handle := 0x55, type := 1, endpointAddress := 3, deviceAddress := 255 }] } =
          some o) ∧
      ∀ pInfo, USBPcapRetrieveEndpointInfo o.hub 0x55 pInfo =
        USBPcapRetrieveEndpointInfo
          { endpointTable :=
              [{ handle := 0x55, type := 1, endpointAddress := 3, deviceAddress := 255 }] }
          0x55 pInfo :=
  ⟨by decide, by decide,
    C6_other_handles_untouched x86 (memOfBytes 4096 twoPipeUrb) 4096 1 _ (by decide) 0x55
      (by decide)⟩

/-- C7: for every registry state and every well-formed `SELECT_CONFIGURATION`
request, analysing the request with `post = TRUE` a second time, on the registry
the first analysis left, gives a registry in which
`USBPcapRetrieveEndpointInfo` has the same result for every pipe handle as
after the first analysis. -/
theorem C7_replay_idempotent (L : Layout) (m : Memory) (pUrb n : Nat)
    (pRootHub : ROOTHUB_DATA) (hwf : WellFormedSelectConfiguration L m pUrb n) :
    ∃ once twice : Outcome,
      (∀ fuel, n ≤ fuel → USBPcapAnalyzeURB L fuel m pUrb true pRootHub = some once) ∧
      (∀ fuel, n ≤ fuel → USBPcapAnalyzeURB L fuel m pUrb true once.hub = some twice) ∧
      ∀ h pInfo, USBPcapRetrieveEndpointInfo twice.hub h pInfo =
        USBPcapRetrieveEndpointInfo once.hub h pInfo := by
  obtain ⟨s, _, h2, _, _, h5, _, _⟩ := analyze_wellFormed L m pUrb n pRootHub hwf
  obtain ⟨s2, _, k2, _, _, k5, _, _⟩ := analyze_wellFormed L m pUrb n s.out.hub hwf
  refine ⟨s.out, s2.out, ?_, ?_, ?_⟩
  · intro fuel hf
    rw [h2 fuel, if_pos hf]
  · intro fuel hf
    rw [k2 fuel, if_pos hf]
  · intro h pInfo
    apply retrieve_congr
    by_cases hex : ∃ P ∈ payloadPipes L m n (pUrb + L.selInterface), pipeHandleAt L m P = h
    · obtain ⟨pre, P, post, e, hP, hpost⟩ := exists_last_occurrence (pipeHandleAt L m) h _ hex
      rw [k5, h5, e, ← hP]
      rw [get_addAll_last L m 255 _ pre post P (by rw [hP]; exact hpost),
        get_addAll_last L m 255 _ pre post P (by rw [hP]; exact hpost)]
    · rw [k5]
      exact get_addAll_of_not_mem L m 255 h _ _ (fun P hP hh => hex ⟨P, hP, hh⟩)

theorem C7_replay_idempotent_witness :
    WellFormedSelectConfiguration x86 (memOfBytes 4096 twoPipeUrb) 4096 1 ∧
    ∃ once twice : Outcome,
      (∀ fuel, 1 ≤ fuel →
        USBPcapAnalyzeURB x86 fuel (memOfBytes 4096 twoPipeUrb) 4096 true
          { endpointTable :=
              [{ handle := 0xA0, type := 0, endpointAddress := 0, deviceAddress := 1 }] } =
          some once) ∧
      (∀ fuel, 1 ≤ fuel →
        USBPcapAnalyzeURB x86 fuel (memOfBytes 4096 twoPipeUrb) 4096 true once.hub =
          some twice) ∧
      ∀ h pInfo, USBPcapRetrieveEndpointInfo twice.hub h pInfo =
        USBPcapRetrieveEndpointInfo once.hub h pInfo :=
  ⟨by decide,
    C7_replay_idempotent x86 (memOfBytes 4096 twoPipeUrb) 4096 1 _ (by decide)⟩

/-- C9 (counterexample): `controlUrb` is a control transfer request on the pipe
handle `0xA0`, which is registered; analysed with either value of `post`,
`USBPcapAnalyzeURB` makes no `USBPcapGetEndpointInfo` call at all. -/
theorem C9_control_transfer_without_lookup :
    readUSHORT (memOfBytes 4096 controlUrb) (4096 + x86.hdrFunction) =
        URB_FUNCTION_CONTROL_TRANSFER ∧
    readPointer x86 (memOfBytes 4096 controlUrb) (4096 + x86.ctlPipeHandle) = 0xA0 ∧
    (∃ o, USBPcapAnalyzeURB x86 0 (memOfBytes 4096 controlUrb) 4096 true
        { endpointTable :=
            [{ handle := 0xA0, type := 0, endpointAddress := 0, deviceAddress := 255 }] } =
          some o ∧ getCalls o.trace = []) ∧
    (∃ o, USBPcapAnalyzeURB x86 0 (memOfBytes 4096 controlUrb) 4096 false
        { endpointTable :=
            [{ handle := 0xA0, type := 0, endpointAddress := 0, deviceAddress := 255 }] } =
          some o ∧ getCalls o.trace = []) := by
  refine ⟨by decide, by decide, ⟨_, rfl, by decide⟩, ⟨_, rfl, by decide⟩⟩

/-- C9 (amended): for both values of `post` and any fuel, the analysis of a
bulk or interrupt transfer request looks up the request's pipe handle, and
nothing else, exactly once; the analysis of a control transfer request, plain or
extended, and of an isochronous transfer request makes no lookup. -/
theorem C9_lookup_only_for_bulk_or_interrupt (L : Layout) (fuel : Nat) (m : Memory)
    (pUrb : Nat) (post : Bool) (pRootHub : ROOTHUB_DATA) :
    (readUSHORT m (pUrb + L.hdrFunction) = URB_FUNCTION_BULK_OR_INTERRUPT_TRANSFER →
      ∃ o, USBPcapAnalyzeURB L fuel m pUrb post pRootHub = some o ∧
        getCalls o.trace = [readPointer L m (pUrb + L.bulkPipeHandle)]) ∧
    (readUSHORT m (pUrb + L.hdrFunction) = URB_FUNCTION_CONTROL_TRANSFER
        ∨ readUSHORT m (pUrb + L.hdrFunction) = URB_FUNCTION_CONTROL_TRANSFER_EX
        ∨ readUSHORT m (pUrb + L.hdrFunction) = URB_FUNCTION_ISOCH_TRANSFER →
      ∃ o, USBPcapAnalyzeURB L fuel m pUrb post pRootHub = some o ∧
        getCalls o.trace = []) := by
  refine ⟨?_, ?_⟩
  · intro hfn
    refine ⟨_, analyze_bulk L fuel m pUrb post pRootHub hfn, ?_⟩
    simp only [getCalls_append]
    rw [getCalls_retrieve]
    by_cases h : readPointer L m (pUrb + L.bulkTransferBuffer) = 0
    · rw [if_neg (not_not.mpr h)]; simp [getCalls]
    · rw [if_pos h, getCalls_printChars]; simp [getCalls]
  · rintro (hfn | hfn | hfn)
    · exact ⟨_, analyze_control L fuel m pUrb post pRootHub hfn,
        (control_trace_facts m _ _ _ _).2.2⟩
    · exact ⟨_, analyze_controlEx L fuel m pUrb post pRootHub hfn,
        (control_trace_facts m _ _ _ _).2.2⟩
    · exact ⟨_, analyze_isoch L fuel m pUrb post pRootHub hfn, rfl⟩

theorem C9_lookup_only_for_bulk_or_interrupt_witness :
    readUSHORT (memOfBytes 4096 bulkUrb) (4096 + x86.hdrFunction) =
        URB_FUNCTION_BULK_OR_INTERRUPT_TRANSFER ∧
    ∃ o, USBPcapAnalyzeURB x86 0 (memOfBytes 4096 bulkUrb) 4096 false
        { endpointTable := [] } = some o ∧
      getCalls o.trace = [readPointer x86 (memOfBytes 4096 bulkUrb) (4096 + x86.bulkPipeHandle)] :=
  ⟨by decide,
    (C9_lookup_only_for_bulk_or_interrupt x86 0 (memOfBytes 4096 bulkUrb) 4096 false
      { endpointTable := [] }).1 (by decide)⟩

/-- C10: for every control transfer request, plain or extended, the analysis
returns for any fuel and both values of `post`; it dumps the setup packet, and
the transfer buffer if and only if `TransferBuffer` is not `NULL`: the bytes
dumped are the 8 bytes of the setup packet, followed, if `TransferBuffer` is not
`NULL`, by the `TransferBufferLength` bytes at `TransferBuffer`.  With a `NULL`
`TransferBuffer` the outcome is the same in every memory that agrees with this
one from the request's address on, whatever `TransferBufferLength` is: nothing
is read at `NULL`.  For bulk or interrupt transfers and for descriptor requests
the transfer buffer is dumped, with its `TransferBufferLength` bytes, if and
only if `TransferBuffer` is not `NULL`. -/
theorem C10_transfer_buffer_guard (L : Layout) (fuel : Nat) (m : Memory) (pUrb : Nat)
    (post : Bool) (pRootHub : ROOTHUB_DATA) :
    (readUSHORT m (pUrb + L.hdrFunction) = URB_FUNCTION_CONTROL_TRANSFER →
      ∃ o, USBPcapAnalyzeURB L fuel m pUrb post pRootHub = some o ∧
        dumpTexts o.trace = "Setup Packet" ::
          (if readPointer L m (pUrb + L.ctlTransferBuffer) ≠ 0 then ["Transfer Buffer"]
           else []) ∧
        hexBytes o.trace = bufferBytes m (pUrb + L.ctlSetupPacket) 8 ++
          (if readPointer L m (pUrb + L.ctlTransferBuffer) ≠ 0 then
             bufferBytes m (readPointer L m (pUrb + L.ctlTransferBuffer))
               (readULONG m (pUrb + L.ctlTransferBufferLength))
           else []) ∧
        (readPointer L m (pUrb + L.ctlTransferBuffer) = 0 →
          ∀ m2 : Memory, (∀ a, pUrb ≤ a → m2 a = m a) →
            USBPcapAnalyzeURB L fuel m2 pUrb post pRootHub = some o)) ∧
    (readUSHORT m (pUrb + L.hdrFunction) = URB_FUNCTION_CONTROL_TRANSFER_EX →
      ∃ o, USBPcapAnalyzeURB L fuel m pUrb post pRootHub = some o ∧
        dumpTexts o.trace = "Setup Packet" ::
          (if readPointer L m (pUrb + L.ctlExTransferBuffer) ≠ 0 then ["Transfer Buffer"]
           else []) ∧
        hexBytes o.trace = bufferBytes m (pUrb + L.ctlExSetupPacket) 8 ++
          (if readPointer L m (pUrb + L.ctlExTransferBuffer) ≠ 0 then
             bufferBytes m (readPointer L m (pUrb + L.ctlExTransferBuffer))
               (readULONG m (pUrb + L.ctlExTransferBufferLength))
           else []) ∧
        (readPointer L m (pUrb + L.ctlExTransferBuffer) = 0 →
          ∀ m2 : Memory, (∀ a, pUrb ≤ a → m2 a = m a) →
            USBPcapAnalyzeURB L fuel m2 pUrb post pRootHub = some o)) ∧
    (readUSHORT m (pUrb + L.hdrFunction) = URB_FUNCTION_BULK_OR_INTERRUPT_TRANSFER →
      ∃ o, USBPcapAnalyzeURB L fuel m pUrb post pRootHub = some o ∧
        dumpTexts o.trace =
          (if readPointer L m (pUrb + L.bulkTransferBuffer) ≠ 0 then ["Transfer Buffer"]
           else []) ∧
        hexBytes o.trace =
          (if readPointer L m (pUrb + L.bulkTransferBuffer) ≠ 0 then
             bufferBytes m (readPointer L m (pUrb + L.bulkTransferBuffer))
               (readULONG m (pUrb + L.bulkTransferBufferLength))
           else [])) ∧
    (readUSHORT m (pUrb + L.hdrFunction) = URB_FUNCTION_GET_DESCRIPTOR_FROM_DEVICE
        ∨ readUSHORT m (pUrb + L.hdrFunction) = URB_FUNCTION_GET_DESCRIPTOR_FROM_ENDPOINT
        ∨ readUSHORT m (pUrb + L.hdrFunction) = URB_FUNCTION_GET_DESCRIPTOR_FROM_INTERFACE
        ∨ readUSHORT m (pUrb + L.hdrFunction) = URB_FUNCTION_SET_DESCRIPTOR_TO_DEVICE
        ∨ readUSHORT m (pUrb + L.hdrFunction) = URB_FUNCTION_SET_DESCRIPTOR_TO_ENDPOINT
        ∨ readUSHORT m (pUrb + L.hdrFunction) = URB_FUNCTION_SET_DESCRIPTOR_TO_INTERFACE →
      ∃ o, USBPcapAnalyzeURB L fuel m pUrb post pRootHub = some o ∧
        dumpTexts o.trace =
          (if readPointer L m (pUrb + L.descTransferBuffer) ≠ 0 then ["Transfer Buffer"]
           else []) ∧
        hexBytes o.trace =
          (if readPointer L m (pUrb + L.descTransferBuffer) ≠ 0 then
             bufferBytes m (readPointer L m (pUrb + L.descTransferBuffer))
               (readULONG m (pUrb + L.descTransferBufferLength))
           else [])) := by
  refine ⟨?_, ?_, ?_, ?_⟩
  · intro hfn
    refine ⟨_, analyze_control L fuel m pUrb post pRootHub hfn, ?_, ?_, ?_⟩
    · exact (control_trace_facts m _ _ _ _).1
    · exact (control_trace_facts m _ _ _ _).2.1
    · intro hnull m2 hm
      have hfn2 : readUSHORT m2 (pUrb + L.hdrFunction) = URB_FUNCTION_CONTROL_TRANSFER := by
        rw [← hfn]; exact readLE_congr m m2 pUrb hm 2 _
      have hTB : readPointer L m2 (pUrb + L.ctlTransferBuffer) = 0 := by
        rw [← hnull]; exact readLE_congr m m2 pUrb hm _ _
      have hPH : readPointer L m2 (pUrb + L.ctlPipeHandle) =
          readPointer L m (pUrb + L.ctlPipeHandle) := readLE_congr m m2 pUrb hm _ _
      rw [analyze_control L fuel m2 pUrb post pRootHub hfn2]
      simp [analyzeControlTransfer, hTB, hnull, hPH, printChars_congr m m2 pUrb hm]
  · intro hfn
    refine ⟨_, analyze_controlEx L fuel m pUrb post pRootHub hfn, ?_, ?_, ?_⟩
    · exact (control_trace_facts m _ _ _ _).1
    · exact (control_trace_facts m _ _ _ _).2.1
    · intro hnull m2 hm
      have hfn2 : readUSHORT m2 (pUrb + L.hdrFunction) = URB_FUNCTION_CONTROL_TRANSFER_EX := by
        rw [← hfn]; exact readLE_congr m m2 pUrb hm 2 _
      have hTB : readPointer L m2 (pUrb + L.ctlExTransferBuffer) = 0 := by
        rw [← hnull]; exact readLE_congr m m2 pUrb hm _ _
      have hPH : readPointer L m2 (pUrb + L.ctlExPipeHandle) =
          readPointer L m (pUrb + L.ctlExPipeHandle) := readLE_congr m m2 pUrb hm _ _
      rw [analyze_controlEx L fuel m2 pUrb post pRootHub hfn2]
      simp [analyzeControlTransfer, hTB, hnull, hPH, printChars_congr m m2 pUrb hm]
  · intro hfn
    refine ⟨_, analyze_bulk L fuel m pUrb post pRootHub hfn, ?_, ?_⟩
    · simp only [dumpTexts_append]
      rw [dumpTexts_retrieve]
      by_cases h : readPointer L m (pUrb + L.bulkTransferBuffer) = 0
      · rw [if_neg (not_not.mpr h), if_neg (not_not.mpr h)]; simp [dumpTexts]
      · rw [if_pos h, if_pos h, dumpTexts_printChars]; simp [dumpTexts]
    · simp only [hexBytes_append]
      rw [hexBytes_retrieve]
      by_cases h : readPointer L m (pUrb + L.bulkTransferBuffer) = 0
      · rw [if_neg (not_not.mpr h), if_neg (not_not.mpr h)]; simp [hexBytes]
      · rw [if_pos h, if_pos h, hexBytes_printChars]; simp [hexBytes]
  · intro hfn
    refine ⟨_, analyze_descriptor L fuel m pUrb post pRootHub hfn, ?_, ?_⟩
    · simp only [dumpTexts_append]
      rw [dumpTexts_descriptorTypeEvents]
      by_cases h : readPointer L m (pUrb + L.descTransferBuffer) = 0
      · rw [if_neg (not_not.mpr h), if_neg (not_not.mpr h)]; simp [dumpTexts]
      · rw [if_pos h, if_pos h, dumpTexts_printChars]; simp [dumpTexts]
    · simp only [hexBytes_append]
      rw [hexBytes_descriptorTypeEvents]
      by_cases h : readPointer L m (pUrb + L.descTransferBuffer) = 0
      · rw [if_neg (not_not.mpr h), if_neg (not_not.mpr h)]; simp [hexBytes]
      · rw [if_pos h, if_pos h, hexBytes_printChars]; simp [hexBytes]

theorem C10_transfer_buffer_guard_witness :
    readUSHORT (memOfBytes 4096 controlUrb) (4096 + x86.hdrFunction) =
        URB_FUNCTION_CONTROL_TRANSFER ∧
    readPointer x86 (memOfBytes 4096 controlUrb) (4096 + x86.ctlTransferBuffer) = 0 ∧
    readULONG (memOfBytes 4096 controlUrb) (4096 + x86.ctlTransferBufferLength) = 18 ∧
    ∃ o, USBPcapAnalyzeURB x86 0 (memOfBytes 4096 controlUrb) 4096 true
        { endpointTable := [] } = some o ∧
      dumpTexts o.trace = ["Setup Packet"] ∧
      hexBytes o.trace = [0x80, 6, 0, 1, 0, 0, 18, 0] := by
  refine ⟨by decide, by decide, by decide, ?_⟩
  obtain ⟨o, h1, h2, h3, _⟩ :=
    (C10_transfer_buffer_guard x86 0 (memOfBytes 4096 controlUrb) 4096 true
      { endpointTable := [] }).1 (by decide)
  exact ⟨o, h1, h2, h3⟩

/-- C11: for every registry state and pipe handle,
`USBPcapRetrieveEndpointInfo` returns `TRUE` if and only if the table holds an
entry for the handle.  When it returns `TRUE`, the descriptor written to the
caller is the entry the lookup returns: an entry of the table, with that handle.
When it returns `FALSE`, the caller's descriptor is what it was and the only
output is the debug message.  The call makes no insertion.  A bulk or interrupt
transfer on any handle returns, for any fuel and both values of `post`, with
the root hub data unchanged; on an unregistered handle its trace still carries
the transfer flags, buffer length, buffer and MDL read from the request, and
the dump of a non-`NULL` buffer. -/
theorem C11_retrieve_endpoint_info (pRootHub : ROOTHUB_DATA) (handle : Nat)
    (pInfo : USBPCAP_ENDPOINT_INFO) :
    ((USBPcapRetrieveEndpointInfo pRootHub handle pInfo).1 = true ↔
      ∃ e ∈ pRootHub.endpointTable, e.handle = handle) ∧
    ((USBPcapRetrieveEndpointInfo pRootHub handle pInfo).1 = true →
      USBPcapGetEndpointInfo pRootHub.endpointTable handle =
        some (USBPcapRetrieveEndpointInfo pRootHub handle pInfo).2.1 ∧
      (USBPcapRetrieveEndpointInfo pRootHub handle pInfo).2.1 ∈ pRootHub.endpointTable ∧
      (USBPcapRetrieveEndpointInfo pRootHub handle pInfo).2.1.handle = handle) ∧
    ((USBPcapRetrieveEndpointInfo pRootHub handle pInfo).1 = false →
      (USBPcapRetrieveEndpointInfo pRootHub handle pInfo).2.1 = pInfo ∧
      (USBPcapRetrieveEndpointInfo pRootHub handle pInfo).2.2 =
        [Event.USBPcapGetEndpointInfo handle,
         Event.DkDbgVal "Unable to find endpoint info" handle]) ∧
    addCalls (USBPcapRetrieveEndpointInfo pRootHub handle pInfo).2.2 = [] ∧
    (∀ (L : Layout) (fuel : Nat) (m : Memory) (pUrb : Nat) (post : Bool),
      readUSHORT m (pUrb + L.hdrFunction) = URB_FUNCTION_BULK_OR_INTERRUPT_TRANSFER →
      readPointer L m (pUrb + L.bulkPipeHandle) = handle →
      ∃ o, USBPcapAnalyzeURB L fuel m pUrb post pRootHub = some o ∧
        o.hub = pRootHub ∧
        ((∀ e ∈ pRootHub.endpointTable, e.handle ≠ handle) →
          o.trace =
            [Event.DkDbgStr "URB_FUNCTION_BULK_OR_INTERRUPT_TRANSFER",
             Event.DkDbgVal "" handle,
             Event.USBPcapGetEndpointInfo handle,
             Event.DkDbgVal "Unable to find endpoint info" handle,
             Event.DkDbgVal "" (readULONG m (pUrb + L.bulkTransferFlags)),
             Event.DkDbgVal "" (readULONG m (pUrb + L.bulkTransferBufferLength)),
             Event.DkDbgVal "" (readPointer L m (pUrb + L.bulkTransferBuffer)),
             Event.DkDbgVal "" (readPointer L m (pUrb + L.bulkTransferBufferMDL))]
            ++ (if readPointer L m (pUrb + L.bulkTransferBuffer) ≠ 0 then
                  USBPcapPrintChars m "Transfer Buffer"
                    (readPointer L m (pUrb + L.bulkTransferBuffer))
                    (readULONG m (pUrb + L.bulkTransferBufferLength))
                else []))) := by
  refine ⟨?_, ?_, ?_, addCalls_retrieve _ _ _, ?_⟩
  · rw [retrieve_found_iff, get_isSome_iff]
  · intro hf
    rw [retrieve_found_iff] at hf
    obtain ⟨e, he⟩ := Option.isSome_iff_exists.mp hf
    have hr : (USBPcapRetrieveEndpointInfo pRootHub handle pInfo).2.1 = e := by
      simp [USBPcapRetrieveEndpointInfo, he]
    rw [hr]
    exact ⟨he, get_some_mem _ _ _ he⟩
  · intro hf
    rw [retrieve_found_iff] at hf
    have hn : USBPcapGetEndpointInfo pRootHub.endpointTable handle = none := by
      cases hg : USBPcapGetEndpointInfo pRootHub.endpointTable handle with
      | none => rfl
      | some e => rw [hg] at hf; cases hf
    simp [USBPcapRetrieveEndpointInfo, hn]
  · intro L fuel m pUrb post hfn hh
    refine ⟨_, analyze_bulk L fuel m pUrb post pRootHub hfn, rfl, ?_⟩
    intro hnone
    have hn : USBPcapGetEndpointInfo pRootHub.endpointTable handle = none := by
      cases hg : USBPcapGetEndpointInfo pRootHub.endpointTable handle with
      | none => rfl
      | some e => exact absurd (get_some_mem _ _ _ hg).2 (hnone e (get_some_mem _ _ _ hg).1)
    simp [USBPcapRetrieveEndpointInfo, hh, hn]


theorem C11_retrieve_endpoint_info_witness :
    readUSHORT (memOfBytes 4096 bulkUrb) (4096 + x86.hdrFunction) =
        URB_FUNCTION_BULK_OR_INTERRUPT_TRANSFER ∧
    readPointer x86 (memOfBytes 4096 bulkUrb) (4096 + x86.bulkPipeHandle) = 0xA0 ∧
    ∃ o, USBPcapAnalyzeURB x86 0 (memOfBytes 4096 bulkUrb) 4096 true
        { endpointTable :=
            [{ handle := 0xB0, type := 3, endpointAddress := 2, deviceAddress := 255 }] } =
          some o ∧
      o.hub =
        { endpointTable :=
            [{ handle := 0xB0, type := 3, endpointAddress := 2, deviceAddress := 255 }] } ∧
      hexBytes o.trace = [0x48, 0x07] ∧
      Event.DkDbgVal "Unable to find endpoint info" 0xA0 ∈ o.trace := by
  refine ⟨by decide, by decide, ?_⟩
  obtain ⟨o, h1, h2, h3⟩ :=
    (C11_retrieve_endpoint_info
      { endpointTable :=
          [{ handle := 0xB0, type := 3, endpointAddress := 2, deviceAddress := 255 }] }
      0xA0 { handle := 0, type := 0, endpointAddress := 0, deviceAddress := 0 }).2.2.2.2
      x86 0 (memOfBytes 4096 bulkUrb) 4096 true (by decide) (by decide)
  refine ⟨o, h1, h2, ?_, ?_⟩
  · rw [h3 (by decide)]; decide
  · rw [h3 (by decide)]; decide

/-- C12: for every buffer and length, the output of `USBPcapPrintChars` is
the text, ` HEX: `, one entry per byte of the buffer, a line break, the text,
` TEXT: `, one character per byte of the buffer, and a line break.  The HEX line
has exactly `length` entries, the `i`-th being the two upper-case hexadecimal
digits of `buffer[i]` followed by a blank; the TEXT line has exactly `length`
characters, the `i`-th being the byte itself when `0x20 <= buffer[i] <= 0x7E`
and a dot otherwise.  The function reads nothing but these `length` bytes: its
output is the same in every memory that agrees on them.  Its embedding has the
prints as its only result, as the source writes neither to the buffer nor to
the registry. -/
theorem C12_print_chars (m : Memory) (text : String) (buffer length : Nat) :
    printed (USBPcapPrintChars m text buffer length) =
      text.toList ++ " HEX: ".toList
        ++ ((bufferBytes m buffer length).map hexEntry).flatten
        ++ '\n' :: text.toList ++ " TEXT: ".toList
        ++ (bufferBytes m buffer length).map textChar
        ++ ['\n'] ∧
    (printHex m buffer length).map printedBy = (bufferBytes m buffer length).map hexEntry ∧
    ((printHex m buffer length).map printedBy).length = length ∧
    (∀ i, i < length →
      ((printHex m buffer length).map printedBy)[i]? =
        some [hexDigit (readUCHAR m (buffer + i) / 16),
              hexDigit (readUCHAR m (buffer + i) % 16), ' ']) ∧
    (printed (printText m buffer length)).length = length ∧
    (∀ i, i < length →
      (printed (printText m buffer length))[i]? =
        some (if 0x20 ≤ readUCHAR m (buffer + i) ∧ readUCHAR m (buffer + i) ≤ 0x7E then
                Char.ofNat (readUCHAR m (buffer + i))
              else '.')) ∧
    (∀ i, readUCHAR m (buffer + i) < 256) ∧
    (List.range 16).map hexDigit = "0123456789ABCDEF".toList ∧
    (∀ m2 : Memory,
      (∀ i, i < length → readUCHAR m2 (buffer + i) = readUCHAR m (buffer + i)) →
      USBPcapPrintChars m2 text buffer length = USBPcapPrintChars m text buffer length) := by
  refine ⟨?_, printedBy_printHex m buffer length, ?_, ?_, ?_, ?_, ?_, by decide,
    fun m2 h => printChars_congr_buffer m m2 text buffer length h⟩
  · unfold USBPcapPrintChars
    rw [printed_append, printed_append, printed_append, printed_append, printed_singleton,
      printed_singleton, printed_singleton, printed_printText]
    have hh : printed (printHex m buffer length) =
        ((bufferBytes m buffer length).map hexEntry).flatten := by
      unfold printed
      rw [printedBy_printHex]
    rw [hh]
    simp [printedBy, formatKdPrint]
  · rw [printedBy_printHex, List.length_map, bufferBytes_length]
  · intro i hi
    rw [printedBy_printHex, List.getElem?_map, bufferBytes_getElem? m buffer length i hi]
    rfl
  · rw [printed_printText, List.length_map, bufferBytes_length]
  · intro i hi
    rw [printed_printText, List.getElem?_map, bufferBytes_getElem? m buffer length i hi]
    rfl
  · intro i
    have := readLE_lt m 1 (buffer + i)
    simpa [readUCHAR] using this


theorem C12_print_chars_witness :
    printed (USBPcapPrintChars (memOfBytes 4096 bulkUrb) "Transfer Buffer" 4168 2) =
      "Transfer Buffer HEX: 48 07 \nTransfer Buffer TEXT: H.\n".toList := by
  rw [(C12_print_chars (memOfBytes 4096 bulkUrb) "Transfer Buffer" 4168 2).1]
  decide

/-- C13: for every request whose function code is not
`URB_FUNCTION_SELECT_CONFIGURATION`, for both values of `post`, any fuel and
every registry state, `USBPcapAnalyzeURB` returns, makes no
`USBPcapAddEndpointInfo` call and leaves the root hub data as it was.
Conversely, whenever an analysis returns with an insertion in its trace or with
changed root hub data, the request is a `SELECT_CONFIGURATION` request and
`post` is `TRUE`. -/
theorem C13_no_insertion_outside_select (L : Layout) (fuel : Nat) (m : Memory) (pUrb : Nat)
    (post : Bool) (pRootHub : ROOTHUB_DATA) :
    (readUSHORT m (pUrb + L.hdrFunction) ≠ URB_FUNCTION_SELECT_CONFIGURATION →
      ∃ o, USBPcapAnalyzeURB L fuel m pUrb post pRootHub = some o ∧
        o.hub = pRootHub ∧ addCalls o.trace = []) ∧
    (∀ o, USBPcapAnalyzeURB L fuel m pUrb post pRootHub = some o →
      (o.hub ≠ pRootHub ∨ addCalls o.trace ≠ []) →
      readUSHORT m (pUrb + L.hdrFunction) = URB_FUNCTION_SELECT_CONFIGURATION ∧
        post = true) := by
  constructor
  · intro hfn
    obtain ⟨t, ht, ha, _⟩ := analyze_not_select L fuel m pUrb post pRootHub hfn
    exact ⟨_, ht, rfl, ha⟩
  · intro o ho hch
    by_cases hfn : readUSHORT m (pUrb + L.hdrFunction) = URB_FUNCTION_SELECT_CONFIGURATION
    · refine ⟨hfn, ?_⟩
      cases post with
      | true => rfl
      | false =>
        rw [analyze_select L fuel m pUrb false pRootHub hfn] at ho
        simp only [if_true, Option.some.injEq] at ho
        subst ho
        rcases hch with h | h
        · exact absurd rfl h
        · exact absurd rfl h
    · obtain ⟨t, ht, ha, _⟩ := analyze_not_select L fuel m pUrb post pRootHub hfn
      rw [ht, Option.some.injEq] at ho
      subst ho
      rcases hch with h | h
      · exact absurd rfl h
      · exact absurd ha h

theorem C13_no_insertion_outside_select_witness :
    readUSHORT (memOfBytes 4096 bulkUrb) (4096 + x86.hdrFunction) ≠
        URB_FUNCTION_SELECT_CONFIGURATION ∧
    ∃ o, USBPcapAnalyzeURB x86 0 (memOfBytes 4096 bulkUrb) 4096 true
        { endpointTable :=
            [{ handle := 0xA0, type := 2, endpointAddress := 0x81, deviceAddress := 255 }] } =
          some o ∧
      o.hub =
        { endpointTable :=
            [{ handle := 0xA0, type := 2, endpointAddress := 0x81, deviceAddress := 255 }] } ∧
      addCalls o.trace = [] :=
  ⟨by decide,
    (C13_no_insertion_outside_select x86 0 (memOfBytes 4096 bulkUrb) 4096 true _).1
      (by decide)⟩

/-- C14: for every request whose function code is not
`URB_FUNCTION_SELECT_CONFIGURATION` and every registry state, the analysis with
`post = FALSE` and the analysis with `post = TRUE` return, for any fuel, the
same outcome: the same trace (debug output, lookups) and the same root hub
data. -/
theorem C14_post_irrelevant_outside_select (L : Layout) (m : Memory) (pUrb : Nat)
    (pRootHub : ROOTHUB_DATA) (fuelFalse fuelTrue : Nat)
    (hfn : readUSHORT m (pUrb + L.hdrFunction) ≠ URB_FUNCTION_SELECT_CONFIGURATION) :
    ∃ o, USBPcapAnalyzeURB L fuelFalse m pUrb false pRootHub = some o ∧
      USBPcapAnalyzeURB L fuelTrue m pUrb true pRootHub = some o ∧
      o.hub = pRootHub := by
  obtain ⟨t, _, _, hall⟩ := analyze_not_select L 0 m pUrb false pRootHub hfn
  exact ⟨_, hall fuelFalse false, hall fuelTrue true, rfl⟩

theorem C14_post_irrelevant_outside_select_witness :
    readUSHORT (memOfBytes 4096 bulkUrb) (4096 + x86.hdrFunction) ≠
        URB_FUNCTION_SELECT_CONFIGURATION ∧
    ∃ o, USBPcapAnalyzeURB x86 0 (memOfBytes 4096 bulkUrb) 4096 false
          { endpointTable := [] } = some o ∧
      USBPcapAnalyzeURB x86 3 (memOfBytes 4096 bulkUrb) 4096 true
          { endpointTable := [] } = some o ∧
      o.hub = { endpointTable := [] } :=
  ⟨by decide,
    C14_post_irrelevant_outside_select x86 (memOfBytes 4096 bulkUrb) 4096 _ 0 3 (by decide)⟩

/-- C15: in the `SELECT_CONFIGURATION` walk the remaining byte count is a 16-bit
unsigned value.  It starts at `(UrbHeader.Length - offsetof(struct
_URB_SELECT_CONFIGURATION, Interface)) mod 2^16`, each iteration turns it into
`(remaining - Length) mod 2^16`, and it stays below `2^16`.  When the header
length is smaller than the offset (an offset below `2^16`, as the real ones
are), the starting count is not zero, so the loop does not exit before its body
has run once.  The loop exits only in a state whose count is 0: it returns
exactly when, after some number `k` of iterations within the fuel, the count is
0 for the first time. -/
theorem C15_sixteen_bit_count (L : Layout) (m : Memory) (pUrb : Nat)
    (pRootHub : ROOTHUB_DATA) :
    (((walkInit L m pUrb pRootHub).interfaces_len : Int) =
      ((readUSHORT m (pUrb + L.hdrLength) : Int) - (L.selInterface : Int)) % 65536) ∧
    (∀ s : WalkState,
      ((walkBody L m 255 s).interfaces_len : Int) =
        ((s.interfaces_len : Int) - (interfaceLength L m s.pInterface : Int)) % 65536) ∧
    (∀ k, (walkSteps L m 255 k (walkInit L m pUrb pRootHub)).interfaces_len < 65536) ∧
    (readUSHORT m (pUrb + L.hdrLength) < L.selInterface → L.selInterface < 65536 →
      (walkInit L m pUrb pRootHub).interfaces_len ≠ 0 ∧
      walk L m 255 0 (walkInit L m pUrb pRootHub) = none ∧
      ∀ fuel, walk L m 255 (fuel + 1) (walkInit L m pUrb pRootHub) =
        walk L m 255 fuel (walkBody L m 255 (walkInit L m pUrb pRootHub))) ∧
    (∀ fuel f, walk L m 255 fuel (walkInit L m pUrb pRootHub) = some f ↔
      ∃ k, k ≤ fuel ∧ f = walkSteps L m 255 k (walkInit L m pUrb pRootHub) ∧
        f.interfaces_len = 0 ∧
        ∀ j, j < k → (walkSteps L m 255 j (walkInit L m pUrb pRootHub)).interfaces_len ≠ 0) := by
  have hU := readUSHORT_lt m (pUrb + L.hdrLength)
  refine ⟨?_, ?_, ?_, ?_, ?_⟩
  · simp only [walkInit]
    omega
  · intro s
    have hL := readUSHORT_lt m (s.pInterface + L.ifLength)
    rw [walkBody_len]
    unfold interfaceLength at *
    omega
  · intro k
    exact walkSteps_len_lt L m 255 k _ (walkInit_len_lt L m pUrb pRootHub)
  · intro hlt hoff
    have hne : (walkInit L m pUrb pRootHub).interfaces_len ≠ 0 := by
      simp only [walkInit]
      omega
    have hpos : (walkInit L m pUrb pRootHub).interfaces_len > 0 := Nat.pos_of_ne_zero hne
    refine ⟨hne, ?_, ?_⟩
    · unfold walk
      simp [hpos]
    · intro fuel
      conv_lhs => unfold walk
      simp [hpos]
  · intro fuel f
    exact walk_some_iff L m 255 fuel _ f

theorem C15_sixteen_bit_count_witness :
    readUSHORT (memOfBytes 4096 shortHeaderUrb) (4096 + x86.hdrLength) < x86.selInterface ∧
    x86.selInterface < 65536 ∧
    (walkInit x86 (memOfBytes 4096 shortHeaderUrb) 4096 { endpointTable := [] }).interfaces_len
      = 65520 ∧
    (walkInit x86 (memOfBytes 4096 shortHeaderUrb) 4096 { endpointTable := [] }).interfaces_len
      ≠ 0 ∧
    walk x86 (memOfBytes 4096 shortHeaderUrb) 255 0
      (walkInit x86 (memOfBytes 4096 shortHeaderUrb) 4096 { endpointTable := [] }) = none :=
  ⟨by decide, by decide, by decide,
    ((C15_sixteen_bit_count x86 (memOfBytes 4096 shortHeaderUrb) 4096
      { endpointTable := [] }).2.2.2.1 (by decide) (by decide)).1,
    ((C15_sixteen_bit_count x86 (memOfBytes 4096 shortHeaderUrb) 4096
      { endpointTable := [] }).2.2.2.1 (by decide) (by decide)).2.1⟩

end USBPcap
